import Mathlib

/-!
Verification development for the dual-write / cross-matching subsystem of a
real-estate listings service (a FastAPI + SQLAlchemy + OpenSearch backend).

The embedding mirrors, definition by definition:
* the Pydantic request models `SupplyProperty` / `DemandRequest` (module
  `backend/models/property.py`), including their field defaults — the three
  tag-list fields default to the empty list, everything else to null;
* the SQLAlchemy row shapes `SQLSupplyProperty` / `SQLDemandRequest` and their
  `to_dict` projections (`backend/models/sql_property.py`) — a row is modelled
  as an association list from column name to value, one entry per column;
* the router handlers of `backend/routers/properties.py`: the create / update /
  delete flows (`add_supply`, `update_supply`, `delete_supply` and the demand
  twins), the helper `prepare_and_index`, the cross-match query builder
  `create_cross_search_query` (split here into its two reachable branches) and
  the `/search/supply` query builder.

Python floats are modelled as rationals; machine behaviour of the claims never
depends on float rounding, only on zero tests and value transport.  The
SQLAlchemy session is modelled with explicit committed / pending state:
`commit` publishes pending changes, `rollback` discards pending changes only —
in particular a `rollback` issued after a successful `commit` leaves the
committed data untouched, which is exactly the behaviour of the library.
Failures of the OpenSearch client calls are injected through a `WriteEnv`
record of booleans.
-/

set_option maxHeartbeats 2000000
set_option synthInstance.maxSize 1024

namespace RealEstate

/-- JSON-like values stored in rows, documents and query clauses.
`vNone` is Python `None` stored in a column. -/
inductive PVal where
  | vNone
  | vStr (s : String)
  | vNum (q : ℚ)
  | vInt (n : Int)
  | vBool (b : Bool)
  | vList (l : List String)
deriving DecidableEq

/-- An association list from string keys to values: used both for Python dicts
and for SQL rows (one entry per column). -/
abbrev Entries := List (String × PVal)

/-- First-match lookup, i.e. Python `d.get(k)` on a dict with unique keys. -/
def alookup {α : Type} (k : String) : List (String × α) → Option α
  | [] => none
  | (k2, v) :: t => if k = k2 then some v else alookup k t

/-- Python `d[k] = v`: replace the entry if the key is present, append it
otherwise. -/
def aset {α : Type} (k : String) (v : α) : List (String × α) → List (String × α)
  | [] => [(k, v)]
  | (k2, v2) :: t => if k2 = k then (k, v) :: t else (k2, v2) :: aset k v t

/-- Python `d.pop(k, None)`: drop the entry with the given key. -/
def aerase {α : Type} (k : String) : List (String × α) → List (String × α)
  | [] => []
  | (k2, v2) :: t => if k2 = k then t else (k2, v2) :: aerase k t

/-- One optional dict entry: the building block of `.dict(exclude_none=True)`,
which emits a field iff its value is not `None`. -/
def optEntry (k : String) (o : Option PVal) : Entries :=
  match o with
  | none => []
  | some v => [(k, v)]

/-- Python truthiness of an optional string: `None` and `""` are falsy. -/
def truthyS : Option String → Bool
  | none => false
  | some s => !(s == "")

/-- Python truthiness of an optional float (modelled as a rational):
`None` and `0` are falsy. -/
def truthyQ : Option ℚ → Bool
  | none => false
  | some q => !(q == 0)

/-- Python truthiness of an optional int: `None` and `0` are falsy. -/
def truthyI : Option Int → Bool
  | none => false
  | some n => !(n == 0)

-- Closed enumerations from `backend/models/property.py`.

/-- `PropertyType` enum. -/
inductive PropertyType where
  | FLAT | BUNGALOW | PLOT | OFFICE | SHOP | AGRICULTURAL_LAND | INDUSTRIAL_LAND
deriving DecidableEq

/-- The `.value` string of a `PropertyType` member. -/
def PropertyType.value : PropertyType → String
  | FLAT => "Flat"
  | BUNGALOW => "Bungalow"
  | PLOT => "Plot"
  | OFFICE => "Office"
  | SHOP => "Shop"
  | AGRICULTURAL_LAND => "Agricultural Land"
  | INDUSTRIAL_LAND => "Industrial Land"

/-- `ListingType` enum. -/
inductive ListingType where
  | SALE | RENT
deriving DecidableEq

/-- The `.value` string of a `ListingType` member. -/
def ListingType.value : ListingType → String
  | SALE => "SALE"
  | RENT => "RENT"

/-- `FurnishingStatus` enum. -/
inductive FurnishingStatus where
  | FURNISHED | UNFURNISHED | SEMI_FURNISHED
deriving DecidableEq

/-- The `.value` string of a `FurnishingStatus` member. -/
def FurnishingStatus.value : FurnishingStatus → String
  | FURNISHED => "FURNISHED"
  | UNFURNISHED => "UNFURNISHED"
  | SEMI_FURNISHED => "SEMI_FURNISHED"

-- OpenSearch query grammar, restricted to the clause shapes the code emits.

/-- The body of a `range` clause: an optional `gte` and an optional `lte`
bound, mirroring the incrementally-built Python dict. -/
structure RangeSpec where
  gte : Option PVal := none
  lte : Option PVal := none
deriving DecidableEq

/-- A single OpenSearch boolean-query clause as emitted by the routers. -/
inductive Clause where
  /-- `{"match": {field: {"query": text, "fuzziness": "AUTO"}}}` -/
  | matchFuzzy (field : String) (text : String)
  /-- `{"match": {field: {"query": text, "boost": boost}}}` -/
  | matchBoost (field : String) (text : String) (boost : Nat)
  /-- `{"term": {field: v}}` -/
  | term (field : String) (v : PVal)
  /-- `{"range": {field: spec}}` -/
  | range (field : String) (spec : RangeSpec)
deriving DecidableEq

/-- `{"bool": {"must": ..., "should": ..., "filter": ...}}`. -/
structure BoolQuery where
  must : List Clause := []
  should : List Clause := []
  filter : List Clause := []
deriving DecidableEq

/-- `{"query": ..., "size": ...}`. -/
structure SearchBody where
  query : BoolQuery
  size : Int
deriving DecidableEq

-- Pydantic request models (`backend/models/property.py`), field order as
-- declared.  The enum-valued tag lists `overlooking` / `additional_rooms` are
-- modelled as string lists (their closed vocabularies play no role in the
-- claims); their Pydantic default is the empty list, not `None`.

/-- The Pydantic `SupplyProperty` model (BaseListing fields first). -/
structure SupplyProperty where
  property_id : Option String := none
  customer_id : Option String := none
  title : Option String := none
  description : Option String := none
  locality : Option String := none
  facing_direction : Option String := none
  property_type : Option PropertyType := none
  listing_type : Option ListingType := none
  furnishing_status : Option FurnishingStatus := none
  overlooking : Option (List String) := some []
  additional_rooms : Option (List String) := some []
  amenities : Option (List String) := some []
  listed_date : Option String := none
  lift_available : Option Bool := none
  customer_name : Option String := none
  customer_email : Option String := none
  customer_phone : Option String := none
  customer_address : Option String := none
  customer_referred_by : Option String := none
  customer_additional_info : Option String := none
  price : Option ℚ := none
  deposit : Option ℚ := none
  bhk : Option Int := none
  area_sqft : Option Int := none
  bathrooms : Option Int := none
  age_of_building : Option Int := none
  floor_number : Option Int := none
  total_floors : Option Int := none
deriving DecidableEq

/-- The Pydantic `DemandRequest` model (BaseListing fields first). -/
structure DemandRequest where
  property_id : Option String := none
  customer_id : Option String := none
  title : Option String := none
  description : Option String := none
  locality : Option String := none
  facing_direction : Option String := none
  property_type : Option PropertyType := none
  listing_type : Option ListingType := none
  furnishing_status : Option FurnishingStatus := none
  overlooking : Option (List String) := some []
  additional_rooms : Option (List String) := some []
  amenities : Option (List String) := some []
  listed_date : Option String := none
  lift_available : Option Bool := none
  customer_name : Option String := none
  customer_email : Option String := none
  customer_phone : Option String := none
  customer_address : Option String := none
  customer_referred_by : Option String := none
  customer_additional_info : Option String := none
  price_min : Option ℚ := none
  price_max : Option ℚ := none
  deposit_max : Option ℚ := none
  bhk_min : Option Int := none
  bhk_max : Option Int := none
  area_sqft_min : Option Int := none
  area_sqft_max : Option Int := none
  bathrooms : Option Int := none
deriving DecidableEq

-- Raw JSON request bodies.  For each model field the outer `Option` records
-- whether the key is present in the request body at all, the inner value is
-- the supplied value (`none` = explicit JSON null).  Parsing fills absent
-- fields with the Pydantic defaults.

/-- A raw create/update request body for the supply endpoints. -/
structure SupplyPayload where
  property_id : Option (Option String) := none
  customer_id : Option (Option String) := none
  title : Option (Option String) := none
  description : Option (Option String) := none
  locality : Option (Option String) := none
  facing_direction : Option (Option String) := none
  property_type : Option (Option PropertyType) := none
  listing_type : Option (Option ListingType) := none
  furnishing_status : Option (Option FurnishingStatus) := none
  overlooking : Option (Option (List String)) := none
  additional_rooms : Option (Option (List String)) := none
  amenities : Option (Option (List String)) := none
  listed_date : Option (Option String) := none
  lift_available : Option (Option Bool) := none
  customer_name : Option (Option String) := none
  customer_email : Option (Option String) := none
  customer_phone : Option (Option String) := none
  customer_address : Option (Option String) := none
  customer_referred_by : Option (Option String) := none
  customer_additional_info : Option (Option String) := none
  price : Option (Option ℚ) := none
  deposit : Option (Option ℚ) := none
  bhk : Option (Option Int) := none
  area_sqft : Option (Option Int) := none
  bathrooms : Option (Option Int) := none
  age_of_building : Option (Option Int) := none
  floor_number : Option (Option Int) := none
  total_floors : Option (Option Int) := none
deriving DecidableEq

/-- A raw create/update request body for the demand endpoints. -/
structure DemandPayload where
  property_id : Option (Option String) := none
  customer_id : Option (Option String) := none
  title : Option (Option String) := none
  description : Option (Option String) := none
  locality : Option (Option String) := none
  facing_direction : Option (Option String) := none
  property_type : Option (Option PropertyType) := none
  listing_type : Option (Option ListingType) := none
  furnishing_status : Option (Option FurnishingStatus) := none
  overlooking : Option (Option (List String)) := none
  additional_rooms : Option (Option (List String)) := none
  amenities : Option (Option (List String)) := none
  listed_date : Option (Option String) := none
  lift_available : Option (Option Bool) := none
  customer_name : Option (Option String) := none
  customer_email : Option (Option String) := none
  customer_phone : Option (Option String) := none
  customer_address : Option (Option String) := none
  customer_referred_by : Option (Option String) := none
  customer_additional_info : Option (Option String) := none
  price_min : Option (Option ℚ) := none
  price_max : Option (Option ℚ) := none
  deposit_max : Option (Option ℚ) := none
  bhk_min : Option (Option Int) := none
  bhk_max : Option (Option Int) := none
  area_sqft_min : Option (Option Int) := none
  area_sqft_max : Option (Option Int) := none
  bathrooms : Option (Option Int) := none
deriving DecidableEq

/-- An absent payload key falls back to the field's declared default `None`. -/
def defNone {α : Type} (o : Option (Option α)) : Option α := o.getD none

/-- An absent payload key for one of the three tag-list fields falls back to
the declared default `[]`. -/
def defEmptyList (o : Option (Option (List String))) : Option (List String) :=
  o.getD (some [])

/-- Pydantic validation of a supply request body: absent keys receive the
declared defaults (empty lists for the three tag-list fields, null for all
other fields). -/
def parseSupply (p : SupplyPayload) : SupplyProperty :=
  { property_id := defNone p.property_id
    customer_id := defNone p.customer_id
    title := defNone p.title
    description := defNone p.description
    locality := defNone p.locality
    facing_direction := defNone p.facing_direction
    property_type := defNone p.property_type
    listing_type := defNone p.listing_type
    furnishing_status := defNone p.furnishing_status
    overlooking := defEmptyList p.overlooking
    additional_rooms := defEmptyList p.additional_rooms
    amenities := defEmptyList p.amenities
    listed_date := defNone p.listed_date
    lift_available := defNone p.lift_available
    customer_name := defNone p.customer_name
    customer_email := defNone p.customer_email
    customer_phone := defNone p.customer_phone
    customer_address := defNone p.customer_address
    customer_referred_by := defNone p.customer_referred_by
    customer_additional_info := defNone p.customer_additional_info
    price := defNone p.price
    deposit := defNone p.deposit
    bhk := defNone p.bhk
    area_sqft := defNone p.area_sqft
    bathrooms := defNone p.bathrooms
    age_of_building := defNone p.age_of_building
    floor_number := defNone p.floor_number
    total_floors := defNone p.total_floors }

/-- Pydantic validation of a demand request body. -/
def parseDemand (p : DemandPayload) : DemandRequest :=
  { property_id := defNone p.property_id
    customer_id := defNone p.customer_id
    title := defNone p.title
    description := defNone p.description
    locality := defNone p.locality
    facing_direction := defNone p.facing_direction
    property_type := defNone p.property_type
    listing_type := defNone p.listing_type
    furnishing_status := defNone p.furnishing_status
    overlooking := defEmptyList p.overlooking
    additional_rooms := defEmptyList p.additional_rooms
    amenities := defEmptyList p.amenities
    listed_date := defNone p.listed_date
    lift_available := defNone p.lift_available
    customer_name := defNone p.customer_name
    customer_email := defNone p.customer_email
    customer_phone := defNone p.customer_phone
    customer_address := defNone p.customer_address
    customer_referred_by := defNone p.customer_referred_by
    customer_additional_info := defNone p.customer_additional_info
    price_min := defNone p.price_min
    price_max := defNone p.price_max
    deposit_max := defNone p.deposit_max
    bhk_min := defNone p.bhk_min
    bhk_max := defNone p.bhk_max
    area_sqft_min := defNone p.area_sqft_min
    area_sqft_max := defNone p.area_sqft_max
    bathrooms := defNone p.bathrooms }

/-- A named field holding an already-encoded optional value: one line of a
model's field table. -/
def fS (k : String) (o : Option String) : String × Option PVal := (k, o.map PVal.vStr)

/-- Field-table line for a float-valued field. -/
def fQ (k : String) (o : Option ℚ) : String × Option PVal := (k, o.map PVal.vNum)

/-- Field-table line for an int-valued field. -/
def fI (k : String) (o : Option Int) : String × Option PVal := (k, o.map PVal.vInt)

/-- Field-table line for a bool-valued field. -/
def fB (k : String) (o : Option Bool) : String × Option PVal := (k, o.map PVal.vBool)

/-- Field-table line for a tag-list field. -/
def fL (k : String) (o : Option (List String)) : String × Option PVal := (k, o.map PVal.vList)

/-- Field-table line for a `PropertyType` field (carried as its value string). -/
def fPT (k : String) (o : Option PropertyType) : String × Option PVal :=
  (k, o.map (fun e => PVal.vStr e.value))

/-- Field-table line for a `ListingType` field. -/
def fLT (k : String) (o : Option ListingType) : String × Option PVal :=
  (k, o.map (fun e => PVal.vStr e.value))

/-- Field-table line for a `FurnishingStatus` field. -/
def fFS (k : String) (o : Option FurnishingStatus) : String × Option PVal :=
  (k, o.map (fun e => PVal.vStr e.value))

/-- Turn a field table into a dict: one entry per field whose value is not
`None`, in table order — the semantics of `.dict(exclude_none=True)`. -/
def dictOfTable (t : List (String × Option PVal)) : Entries :=
  t.foldr (fun kv acc => optEntry kv.1 kv.2 ++ acc) []

/-- The fields of a `SupplyProperty`, in declaration order, with their
encoded values. -/
def supplyFieldTable (m : SupplyProperty) : List (String × Option PVal) :=
  [fS "property_id" m.property_id,
   fS "customer_id" m.customer_id,
   fS "title" m.title,
   fS "description" m.description,
   fS "locality" m.locality,
   fS "facing_direction" m.facing_direction,
   fPT "property_type" m.property_type,
   fLT "listing_type" m.listing_type,
   fFS "furnishing_status" m.furnishing_status,
   fL "overlooking" m.overlooking,
   fL "additional_rooms" m.additional_rooms,
   fL "amenities" m.amenities,
   fS "listed_date" m.listed_date,
   fB "lift_available" m.lift_available,
   fS "customer_name" m.customer_name,
   fS "customer_email" m.customer_email,
   fS "customer_phone" m.customer_phone,
   fS "customer_address" m.customer_address,
   fS "customer_referred_by" m.customer_referred_by,
   fS "customer_additional_info" m.customer_additional_info,
   fQ "price" m.price,
   fQ "deposit" m.deposit,
   fI "bhk" m.bhk,
   fI "area_sqft" m.area_sqft,
   fI "bathrooms" m.bathrooms,
   fI "age_of_building" m.age_of_building,
   fI "floor_number" m.floor_number,
   fI "total_floors" m.total_floors]

/-- The fields of a `DemandRequest`, in declaration order, with their
encoded values. -/
def demandFieldTable (m : DemandRequest) : List (String × Option PVal) :=
  [fS "property_id" m.property_id,
   fS "customer_id" m.customer_id,
   fS "title" m.title,
   fS "description" m.description,
   fS "locality" m.locality,
   fS "facing_direction" m.facing_direction,
   fPT "property_type" m.property_type,
   fLT "listing_type" m.listing_type,
   fFS "furnishing_status" m.furnishing_status,
   fL "overlooking" m.overlooking,
   fL "additional_rooms" m.additional_rooms,
   fL "amenities" m.amenities,
   fS "listed_date" m.listed_date,
   fB "lift_available" m.lift_available,
   fS "customer_name" m.customer_name,
   fS "customer_email" m.customer_email,
   fS "customer_phone" m.customer_phone,
   fS "customer_address" m.customer_address,
   fS "customer_referred_by" m.customer_referred_by,
   fS "customer_additional_info" m.customer_additional_info,
   fQ "price_min" m.price_min,
   fQ "price_max" m.price_max,
   fQ "deposit_max" m.deposit_max,
   fI "bhk_min" m.bhk_min,
   fI "bhk_max" m.bhk_max,
   fI "area_sqft_min" m.area_sqft_min,
   fI "area_sqft_max" m.area_sqft_max,
   fI "bathrooms" m.bathrooms]

/-- `SupplyProperty.dict(exclude_none=True)`: one entry per non-null field, in
field declaration order; enum members are carried as their value strings. -/
def SupplyProperty.dictExcludeNone (m : SupplyProperty) : Entries :=
  dictOfTable (supplyFieldTable m)

/-- `DemandRequest.dict(exclude_none=True)`. -/
def DemandRequest.dictExcludeNone (m : DemandRequest) : Entries :=
  dictOfTable (demandFieldTable m)

-- Query builders (`backend/routers/properties.py`).

/-- The fuzzy locality `must` clause, emitted only for a truthy locality. -/
def localityClause (o : Option String) : List Clause :=
  match o with
  | some loc => if loc = "" then [] else [Clause.matchFuzzy "locality" loc]
  | none => []

/-- A boosted free-text `should` clause, emitted only for a truthy text. -/
def boostClause (field : String) (o : Option String) (boost : Nat) : List Clause :=
  match o with
  | some kw => if kw = "" then [] else [Clause.matchBoost field kw boost]
  | none => []

/-- A `term` filter on an enum-valued source field: emitted iff the field is
present (enum members are always truthy). -/
def optTermStr (field : String) (o : Option String) : List Clause :=
  match o with
  | some v => [Clause.term field (PVal.vStr v)]
  | none => []

/-- A `term` filter on a raw string query parameter: emitted iff the
parameter is truthy (present and non-empty). -/
def optTermTruthyStr (field : String) (o : Option String) : List Clause :=
  match o with
  | some v => if v = "" then [] else [Clause.term field (PVal.vStr v)]
  | none => []

/-- The `if lo or hi:` range-filter pattern of the search endpoints: an
incrementally-built `range` clause whose `gte` / `lte` keys are set only for
truthy bounds, emitted only when at least one bound is truthy. -/
def rangeIfTruthy (field : String) (lo hi : Option Int) : List Clause :=
  if truthyI lo || truthyI hi then
    [Clause.range field
      { gte := if truthyI lo then lo.map PVal.vInt else none
        lte := if truthyI hi then hi.map PVal.vInt else none }]
  else []

/-- A `term` filter on a truthy int parameter (`if bhk: ... term ...`). -/
def termIfTruthyInt (field : String) (o : Option Int) : List Clause :=
  match o with
  | some b => if b = 0 then [] else [Clause.term field (PVal.vInt b)]
  | none => []

/-- A `term` filter emitted whenever the boolean parameter is present
(`if has_lift is not None: ...`). -/
def termIfSomeBool (field : String) (o : Option Bool) : List Clause :=
  match o with
  | some hl => [Clause.term field (PVal.vBool hl)]
  | none => []

/-- Supply price against the demand range: `price_min <= p` and
`price_max >= p`, emitted only for a truthy `p`. -/
def supplyPriceCross (price : Option ℚ) : List Clause :=
  match price with
  | some p =>
      if p = 0 then [] else
        [Clause.range "price_min" { lte := some (PVal.vNum p) },
         Clause.range "price_max" { gte := some (PVal.vNum p) }]
  | none => []

/-- Supply bhk against the demand range: `bhk_min <= b` and `bhk_max >= b`,
emitted only for a truthy `b`. -/
def supplyBhkCross (bhk : Option Int) : List Clause :=
  match bhk with
  | some b =>
      if b = 0 then [] else
        [Clause.range "bhk_min" { lte := some (PVal.vInt b) },
         Clause.range "bhk_max" { gte := some (PVal.vInt b) }]
  | none => []

/-- One-sided `gte` range filter from a truthy demand lower bound (float). -/
def gteCrossQ (field : String) (o : Option ℚ) : List Clause :=
  match o with
  | some a => if a = 0 then [] else [Clause.range field { gte := some (PVal.vNum a) }]
  | none => []

/-- One-sided `lte` range filter from a truthy demand upper bound (float). -/
def lteCrossQ (field : String) (o : Option ℚ) : List Clause :=
  match o with
  | some c => if c = 0 then [] else [Clause.range field { lte := some (PVal.vNum c) }]
  | none => []

/-- One-sided `gte` range filter from a truthy demand lower bound (int). -/
def gteCrossI (field : String) (o : Option Int) : List Clause :=
  match o with
  | some a => if a = 0 then [] else [Clause.range field { gte := some (PVal.vInt a) }]
  | none => []

/-- One-sided `lte` range filter from a truthy demand upper bound (int). -/
def lteCrossI (field : String) (o : Option Int) : List Clause :=
  match o with
  | some c => if c = 0 then [] else [Clause.range field { lte := some (PVal.vInt c) }]
  | none => []

/-- `create_cross_search_query(INDEX_DEMAND, source_model)`: the branch taken
when a freshly written supply record is matched against the demand index.
Point values are matched against the demand ranges: `price_min <= price` and
`price_max >= price`, likewise for `bhk`; each pair is emitted only for a
truthy source value. -/
def create_cross_search_query_toDemand (s : SupplyProperty) : SearchBody :=
  { query :=
      { must := localityClause s.locality
        filter :=
          optTermStr "property_type" (s.property_type.map PropertyType.value) ++
          optTermStr "listing_type" (s.listing_type.map ListingType.value) ++
          supplyPriceCross s.price ++ supplyBhkCross s.bhk }
    size := 10 }

/-- `create_cross_search_query(INDEX_SUPPLY, source_model)`: the branch taken
when a freshly written demand record is matched against the supply index.
Each demand bound yields a one-sided range filter on the supply point value,
emitted only for a truthy bound. -/
def create_cross_search_query_toSupply (d : DemandRequest) : SearchBody :=
  { query :=
      { must := localityClause d.locality
        filter :=
          optTermStr "property_type" (d.property_type.map PropertyType.value) ++
          optTermStr "listing_type" (d.listing_type.map ListingType.value) ++
          (gteCrossQ "price" d.price_min ++ lteCrossQ "price" d.price_max) ++
          (gteCrossI "bhk" d.bhk_min ++ lteCrossI "bhk" d.bhk_max) }
    size := 10 }

/-- The query body built by `GET /api/search/supply/`
(`search_supply_properties`, the first registered route, which FastAPI
dispatches to): fuzzy locality in `must`, boosted keyword clauses in
`should`, term filters and the two incrementally-built range filters in
`filter`. -/
def search_supply_query (locality keywords title_keywords listing_type property_type
    facing_direction furnishing_status : Option String)
    (bhk min_sqft max_sqft min_price max_price : Option Int)
    (has_lift : Option Bool) (customer_name : Option String) (size : Int) : SearchBody :=
  { query :=
      { must := localityClause locality
        should := boostClause "description" keywords 2 ++ boostClause "title" title_keywords 3
        filter :=
          optTermTruthyStr "property_type" property_type ++
          optTermTruthyStr "furnishing_status" furnishing_status ++
          termIfTruthyInt "bhk" bhk ++
          termIfSomeBool "lift_available" has_lift ++
          optTermTruthyStr "listing_type" listing_type ++
          optTermTruthyStr "facing_direction" facing_direction ++
          optTermTruthyStr "customer_name" customer_name ++
          rangeIfTruthy "area_sqft" min_sqft max_sqft ++
          rangeIfTruthy "price" min_price max_price }
    size := size }

/-- Whether a clause is a `range` clause on the given field. -/
def Clause.isRangeOn (fld : String) (c : Clause) : Bool :=
  match c with
  | Clause.range f _ => f == fld
  | _ => false

/-- The `range` clauses on a given field among a body's hard filters. -/
def rangeFiltersOn (field : String) (b : SearchBody) : List Clause :=
  b.query.filter.filter (Clause.isRangeOn field)

-- SQL rows (`backend/models/sql_property.py`).  A row is an association list
-- with exactly one entry per declared column, in column declaration order.

/-- The columns of the `supply_properties` table, in declaration order. -/
def supplyColumns : List String :=
  ["id", "title", "description", "locality", "price", "deposit", "bhk",
   "bathrooms", "area_sqft", "age_of_building", "floor_number", "total_floors",
   "property_type", "listing_type", "furnishing_status", "facing_direction",
   "listed_date", "lift_available", "amenities", "images", "overlooking",
   "additional_rooms", "customer_name", "customer_email", "customer_phone",
   "customer_address", "customer_referred_by", "customer_additional_info"]

/-- The columns of the `demand_requests` table, in declaration order.
Note: the table has no `bathrooms` column, although the Pydantic
`DemandRequest` model has a `bathrooms` field. -/
def demandColumns : List String :=
  ["id", "title", "description", "locality", "property_type", "listing_type",
   "furnishing_status", "price_min", "price_max", "deposit_max", "bhk_min",
   "bhk_max", "area_sqft_min", "area_sqft_max", "listed_date", "lift_available",
   "amenities", "overlooking", "additional_rooms", "images", "facing_direction",
   "customer_name", "customer_email", "customer_phone", "customer_address",
   "customer_referred_by", "customer_additional_info"]

/-- The SQLAlchemy declarative constructor `Model(**sqlData)`: every declared
column is initialised from the keyword dict (unsupplied columns default to
null); a keyword that is not a declared column raises `TypeError`, modelled
as `none`. -/
def constructRow (columns : List String) (sqlData : Entries) : Option Entries :=
  if sqlData.all (fun kv => columns.contains kv.1) then
    some (columns.map (fun c => (c, (alookup c sqlData).getD PVal.vNone)))
  else none

/-- The primary-key value of a row (`getattr(sql_model, 'id')`). -/
def rowId (r : Entries) : String :=
  match alookup "id" r with
  | some (PVal.vStr s) => s
  | _ => ""

/-- `SQLSupplyProperty.to_dict`: copy the row and rename the `id` column to
`property_id` (`data['property_id'] = data.pop('id')`); the transient
`_sa_instance_state` bookkeeping attribute has no counterpart in this model,
so only the rename remains. -/
def to_dict_supply (r : Entries) : Entries :=
  aset "property_id" ((alookup "id" r).getD PVal.vNone) (aerase "id" r)

/-- `SQLDemandRequest.to_dict`: same, but the `id` column is renamed to
`request_id`. -/
def to_dict_demand (r : Entries) : Entries :=
  aset "request_id" ((alookup "id" r).getD PVal.vNone) (aerase "id" r)

/-- The document-body cleanup inside `prepare_and_index`: drop the
`property_id` and `request_id` keys from the `to_dict` output. -/
def prepareDoc (d : Entries) : Entries :=
  aerase "request_id" (aerase "property_id" d)

/-- The search index: documents keyed by id. -/
abbrev Idx := List (String × Entries)

/-- `client.index(index, id, body)`: full-document upsert keyed by id. -/
def idxUpsert (idx : Idx) (i : String) (doc : Entries) : Idx := aset i doc idx

/-- `client.delete(index, id, ignore=[404])`: returns the OpenSearch result
string; deleting an absent document is not an error. -/
def idxDelete (idx : Idx) (i : String) : String × Idx :=
  match alookup i idx with
  | some _ => ("deleted", aerase i idx)
  | none => ("not_found", idx)

/-- `prepare_and_index(sql_model, INDEX_SUPPLY, 'id')`: derive the document
from the row via `to_dict`, clean it, and index it under the row's primary
key; returns the id echoed by OpenSearch. -/
def prepare_and_index_supply (r : Entries) (idx : Idx) : String × Idx :=
  (rowId r, idxUpsert idx (rowId r) (prepareDoc (to_dict_supply r)))

/-- `prepare_and_index(sql_model, INDEX_DEMAND, 'id')`. -/
def prepare_and_index_demand (r : Entries) (idx : Idx) : String × Idx :=
  (rowId r, idxUpsert idx (rowId r) (prepareDoc (to_dict_demand r)))

-- The SQLAlchemy session.  Each request handler receives a fresh session
-- whose transaction state is explicit: `commit` publishes the pending
-- changes, `rollback` discards pending changes only — a rollback issued
-- after a successful commit leaves the committed data untouched.

/-- A request-scoped SQLAlchemy session over one table. -/
structure Sess where
  committed : List Entries
  pendingNew : List Entries := []
  pendingDirty : List Entries := []
  pendingDel : List String := []
deriving DecidableEq

/-- A fresh session seeing the given committed rows (`Depends(get_db)`). -/
def Sess.freshFor (rows : List Entries) : Sess := { committed := rows }

/-- `db.add(sql_model)`. -/
def Sess.addRow (db : Sess) (r : Entries) : Sess :=
  { db with pendingNew := db.pendingNew ++ [r] }

/-- Mutating a fetched ORM object (`setattr` loop) marks it dirty. -/
def Sess.markDirty (db : Sess) (r : Entries) : Sess :=
  { db with pendingDirty := db.pendingDirty ++ [r] }

/-- `db.delete(sql_model)`. -/
def Sess.markDel (db : Sess) (i : String) : Sess :=
  { db with pendingDel := db.pendingDel ++ [i] }

/-- `db.commit()`: apply pending deletions, pending updates (matched by
primary key), then pending inserts; all pending state is cleared. -/
def Sess.commit (db : Sess) : Sess :=
  let afterDel := db.committed.filter (fun r => !(db.pendingDel.contains (rowId r)))
  let afterDirty := afterDel.map (fun r =>
    match db.pendingDirty.find? (fun r2 => rowId r2 == rowId r) with
    | some r2 => r2
    | none => r)
  { committed := afterDirty ++ db.pendingNew }

/-- `db.rollback()`: discard pending (uncommitted) changes only. -/
def Sess.rollback (db : Sess) : Sess := { committed := db.committed }

/-- `db.query(Model).filter(Model.id == i).first()`. -/
def findRow (rows : List Entries) (i : String) : Option Entries :=
  rows.find? (fun r => rowId r == i)

/-- Failure injection for the store calls made inside a handler, plus the
hit list the cross-match search returns when it succeeds. -/
structure WriteEnv where
  dbCommitOk : Bool := true
  indexOk : Bool := true
  searchOk : Bool := true
  searchHits : List Entries := []
  indexDeleteOk : Bool := true
deriving DecidableEq

/-- A handler's HTTP outcome. -/
inductive Resp where
  | created (result : String) (opensearch_id : String) (matchList : List Entries)
  | updated (result : String) (opensearch_id : String)
  | deleted (result : String) (opensearch_response : String)
  | httpError (status : Nat)
deriving DecidableEq

/-- `new_id = property_data.property_id if property_data.property_id else
str(uuid4())`: the caller-supplied id is used iff truthy (present and
non-empty), otherwise the freshly generated uuid. -/
def supplyNewId (payload : SupplyPayload) (freshId : String) : String :=
  match (parseSupply payload).property_id with
  | some s => if s = "" then freshId else s
  | none => freshId

/-- The keyword dict handed to the `SQLSupplyProperty` constructor:
`dict(exclude_none=True)` with `id` set to the allocated id and
`property_id` popped. -/
def supplySqlData (payload : SupplyPayload) (freshId : String) : Entries :=
  aerase "property_id"
    (aset "id" (PVal.vStr (supplyNewId payload freshId)) (parseSupply payload).dictExcludeNone)

/-- Same id allocation for `add_demand` (it also reads `property_id`). -/
def demandNewId (payload : DemandPayload) (freshId : String) : String :=
  match (parseDemand payload).property_id with
  | some s => if s = "" then freshId else s
  | none => freshId

/-- The keyword dict handed to the `SQLDemandRequest` constructor. -/
def demandSqlData (payload : DemandPayload) (freshId : String) : Entries :=
  aerase "property_id"
    (aset "id" (PVal.vStr (demandNewId payload freshId)) (parseDemand payload).dictExcludeNone)

/-- `POST /api/supply/` (`add_supply`): allocate the id (caller-supplied if
truthy, else a fresh uuid), build the SQL row from
`dict(exclude_none=True)`, commit it, mirror it to the index, then run the
cross-match search; every exception inside the `try` triggers
`db.rollback()` and a 500.  A commit on a duplicate primary key raises
(IntegrityError), modelled together with `dbCommitOk`. -/
def add_supply (env : WriteEnv) (freshId : String) (payload : SupplyPayload)
    (rows : List Entries) (idx : Idx) : Resp × List Entries × Idx :=
  let property_data := parseSupply payload
  match constructRow supplyColumns (supplySqlData payload freshId) with
  | none => (Resp.httpError 500, rows, idx)
  | some sql_model =>
    let db := (Sess.freshFor rows).addRow sql_model
    if !env.dbCommitOk || (findRow rows (rowId sql_model)).isSome then
      (Resp.httpError 500, db.rollback.committed, idx)
    else
      let db2 := db.commit
      if !env.indexOk then
        (Resp.httpError 500, db2.rollback.committed, idx)
      else
        let pr := prepare_and_index_supply sql_model idx
        let _search_body := create_cross_search_query_toDemand property_data
        if !env.searchOk then
          (Resp.httpError 500, db2.rollback.committed, pr.2)
        else
          (Resp.created "Supply added" pr.1 env.searchHits, db2.committed, pr.2)

/-- `POST /api/demand/` (`add_demand`). -/
def add_demand (env : WriteEnv) (freshId : String) (payload : DemandPayload)
    (rows : List Entries) (idx : Idx) : Resp × List Entries × Idx :=
  let request_data := parseDemand payload
  match constructRow demandColumns (demandSqlData payload freshId) with
  | none => (Resp.httpError 500, rows, idx)
  | some sql_model =>
    let db := (Sess.freshFor rows).addRow sql_model
    if !env.dbCommitOk || (findRow rows (rowId sql_model)).isSome then
      (Resp.httpError 500, db.rollback.committed, idx)
    else
      let db2 := db.commit
      if !env.indexOk then
        (Resp.httpError 500, db2.rollback.committed, idx)
      else
        let pr := prepare_and_index_demand sql_model idx
        let _search_body := create_cross_search_query_toSupply request_data
        if !env.searchOk then
          (Resp.httpError 500, db2.rollback.committed, pr.2)
        else
          (Resp.created "Demand added" pr.1 env.searchHits, db2.committed, pr.2)

/-- The `setattr` loop of the update handlers: apply a dict entry to the
fetched row iff the row has such an attribute (`hasattr`) and the key is
neither `id` nor `property_id`. -/
def updateStep (r : Entries) (kv : String × PVal) : Entries :=
  if (alookup kv.1 r).isSome && !(kv.1 == "id") && !(kv.1 == "property_id") then
    aset kv.1 kv.2 r
  else r

/-- Fold of `updateStep` over `update_data.items()`. -/
def applyUpdates (r : Entries) (l : Entries) : Entries := l.foldl updateStep r

/-- `PUT /api/supply/{property_id}` (`update_supply`): 404 if the row is
absent; otherwise apply the `exclude_none` dict, commit, and re-index the
projection; exceptions trigger `db.rollback()` and a 500. -/
def update_supply (env : WriteEnv) (property_id : String) (payload : SupplyPayload)
    (rows : List Entries) (idx : Idx) : Resp × List Entries × Idx :=
  match findRow rows property_id with
  | none => (Resp.httpError 404, rows, idx)
  | some sql_model =>
    let update_data := (parseSupply payload).dictExcludeNone
    let sql_model2 := applyUpdates sql_model update_data
    let db := (Sess.freshFor rows).markDirty sql_model2
    if !env.dbCommitOk then
      (Resp.httpError 500, db.rollback.committed, idx)
    else
      let db2 := db.commit
      if !env.indexOk then
        (Resp.httpError 500, db2.rollback.committed, idx)
      else
        let pr := prepare_and_index_supply sql_model2 idx
        (Resp.updated "Supply updated" pr.1, db2.committed, pr.2)

/-- `PUT /api/demand/{request_id}` (`update_demand`). -/
def update_demand (env : WriteEnv) (request_id : String) (payload : DemandPayload)
    (rows : List Entries) (idx : Idx) : Resp × List Entries × Idx :=
  match findRow rows request_id with
  | none => (Resp.httpError 404, rows, idx)
  | some sql_model =>
    let update_data := (parseDemand payload).dictExcludeNone
    let sql_model2 := applyUpdates sql_model update_data
    let db := (Sess.freshFor rows).markDirty sql_model2
    if !env.dbCommitOk then
      (Resp.httpError 500, db.rollback.committed, idx)
    else
      let db2 := db.commit
      if !env.indexOk then
        (Resp.httpError 500, db2.rollback.committed, idx)
      else
        let pr := prepare_and_index_demand sql_model2 idx
        (Resp.updated "Demand updated" pr.1, db2.committed, pr.2)

/-- `DELETE /api/supply/{property_id}` (`delete_supply`): 404 from the
relational check if the row is absent (no index call is made, witnessed by
the trailing boolean); otherwise delete the row, commit, then delete the
index document with `ignore=[404]`. -/
def delete_supply (env : WriteEnv) (property_id : String)
    (rows : List Entries) (idx : Idx) : Resp × List Entries × Idx × Bool :=
  match findRow rows property_id with
  | none => (Resp.httpError 404, rows, idx, false)
  | some _ =>
    let db := (Sess.freshFor rows).markDel property_id
    if !env.dbCommitOk then
      (Resp.httpError 500, db.rollback.committed, idx, false)
    else
      let db2 := db.commit
      if !env.indexDeleteOk then
        (Resp.httpError 500, db2.rollback.committed, idx, true)
      else
        let dr := idxDelete idx property_id
        (Resp.deleted "Supply deleted" dr.1, db2.committed, dr.2, true)

/-- `DELETE /api/demand/{request_id}` (`delete_demand`). -/
def delete_demand (env : WriteEnv) (request_id : String)
    (rows : List Entries) (idx : Idx) : Resp × List Entries × Idx × Bool :=
  match findRow rows request_id with
  | none => (Resp.httpError 404, rows, idx, false)
  | some _ =>
    let db := (Sess.freshFor rows).markDel request_id
    if !env.dbCommitOk then
      (Resp.httpError 500, db.rollback.committed, idx, false)
    else
      let db2 := db.commit
      if !env.indexDeleteOk then
        (Resp.httpError 500, db2.rollback.committed, idx, true)
      else
        let dr := idxDelete idx request_id
        (Resp.deleted "Demand deleted" dr.1, db2.committed, dr.2, true)

/-- Keys of an association list are pairwise distinct. -/
def NodupKeys {α : Type} (l : List (String × α)) : Prop := (l.map Prod.fst).Nodup

/-- The supply row committed by `add_supply` for an empty request body and
fresh id `w1`; used by the concrete witnesses. -/
def exSupplyRow : Entries := (constructRow supplyColumns (supplySqlData {} "w1")).getD []

/-- The demand row committed by `add_demand` for an empty request body and
fresh id `w1`; used by the concrete witnesses. -/
def exDemandRow : Entries := (constructRow demandColumns (demandSqlData {} "w1")).getD []

-- Association-list lemmas.

theorem alookup_cons {α : Type} (k k2 : String) (v : α) (t : List (String × α)) :
    alookup k ((k2, v) :: t) = if k = k2 then some v else alookup k t := rfl

theorem alookup_append {α : Type} (k : String) (l1 l2 : List (String × α)) :
    alookup k (l1 ++ l2) =
      (match alookup k l1 with
       | some v => some v
       | none => alookup k l2) := by
  induction l1 with
  | nil => rfl
  | cons kv t ih =>
      rcases kv with ⟨k2, v⟩
      by_cases h : k = k2 <;> simp [alookup, h, ih]

theorem alookup_optEntry (k k2 : String) (o : Option PVal) :
    alookup k (optEntry k2 o) = if k = k2 then o else none := by
  cases o <;> by_cases h : k = k2 <;> simp [optEntry, alookup, h]

theorem dictOfTable_nil : dictOfTable [] = [] := rfl

theorem dictOfTable_cons (k : String) (o : Option PVal) (t : List (String × Option PVal)) :
    dictOfTable ((k, o) :: t) = optEntry k o ++ dictOfTable t := rfl

theorem alookup_dictOfTable_cons (f k : String) (o : Option PVal)
    (t : List (String × Option PVal)) :
    alookup f (dictOfTable ((k, o) :: t)) =
      if f = k then
        (match o with
         | some v => some v
         | none => alookup f (dictOfTable t))
      else alookup f (dictOfTable t) := by
  rw [dictOfTable_cons, alookup_append, alookup_optEntry]
  by_cases h : f = k
  · cases o <;> simp [h]
  · simp [h]

theorem alookup_aset_self {α : Type} (k : String) (v : α) (l : List (String × α)) :
    alookup k (aset k v l) = some v := by
  induction l with
  | nil => simp [aset, alookup]
  | cons kv t ih =>
      rcases kv with ⟨k2, v2⟩
      by_cases h : k2 = k
      · subst h; simp [aset, alookup]
      · simp [aset, alookup, h, ih, Ne.symm h]

theorem alookup_aset_ne {α : Type} {k k2 : String} (v : α) (l : List (String × α))
    (h : k ≠ k2) : alookup k (aset k2 v l) = alookup k l := by
  induction l with
  | nil => simp [aset, alookup, h]
  | cons kv t ih =>
      rcases kv with ⟨k3, v3⟩
      by_cases h3 : k3 = k2
      · subst h3; simp [aset, alookup, h]
      · by_cases hk : k = k3 <;> simp [aset, alookup, h3, hk, ih]

theorem alookup_aerase_ne {α : Type} {k k2 : String} (l : List (String × α))
    (h : k ≠ k2) : alookup k (aerase k2 l) = alookup k l := by
  induction l with
  | nil => rfl
  | cons kv t ih =>
      rcases kv with ⟨k3, v3⟩
      by_cases h3 : k3 = k2
      · subst h3; simp [aerase, alookup, h]
      · by_cases hk : k = k3 <;> simp [aerase, alookup, h3, hk, ih]

theorem alookup_eq_none_of_not_mem {α : Type} {k : String} {l : List (String × α)}
    (h : k ∉ l.map Prod.fst) : alookup k l = none := by
  induction l with
  | nil => rfl
  | cons kv t ih =>
      rcases kv with ⟨k2, v⟩
      simp only [List.map_cons, List.mem_cons] at h
      push_neg at h
      simp [alookup, h.1, ih h.2]

theorem alookup_isSome_eq_contains {α : Type} (k : String) (l : List (String × α)) :
    (alookup k l).isSome = (l.map Prod.fst).contains k := by
  induction l with
  | nil => rfl
  | cons kv t ih =>
      rcases kv with ⟨k2, v⟩
      by_cases h : k = k2 <;> simp [alookup, h, ih]

theorem alookup_aerase_self {α : Type} (k : String) (l : List (String × α))
    (h : NodupKeys l) : alookup k (aerase k l) = none := by
  induction l with
  | nil => rfl
  | cons kv t ih =>
      rcases kv with ⟨k2, v⟩
      have h2 : (k2 ∉ t.map Prod.fst) ∧ NodupKeys t := by
        simpa [NodupKeys] using h
      by_cases hk : k2 = k
      · subst hk
        simpa [aerase] using alookup_eq_none_of_not_mem h2.1
      · simp [aerase, alookup, hk, Ne.symm hk, ih h2.2]

theorem aset_map_fst {α : Type} (k : String) (v : α) (l : List (String × α))
    (h : (l.map Prod.fst).contains k = true) :
    (aset k v l).map Prod.fst = l.map Prod.fst := by
  induction l with
  | nil => simp at h
  | cons kv t ih =>
      rcases kv with ⟨k2, v2⟩
      by_cases hk : k2 = k
      · subst hk; simp [aset]
      · have h2 : (t.map Prod.fst).contains k = true := by
          simpa [List.contains_cons, Ne.symm hk] using h
        simp [aset, hk, ih h2]

-- The `setattr` loop: lookup-level characterisation.

theorem updateStep_map_fst (r : Entries) (kv : String × PVal) :
    (updateStep r kv).map Prod.fst = r.map Prod.fst := by
  unfold updateStep
  split
  · next hc =>
      simp only [Bool.and_eq_true] at hc
      apply aset_map_fst
      rw [← alookup_isSome_eq_contains]
      exact hc.1.1
  · rfl

theorem alookup_updateStep_ne (r : Entries) (k : String) (v : PVal) (f : String)
    (h : f ≠ k) : alookup f (updateStep r (k, v)) = alookup f r := by
  unfold updateStep
  split
  · exact alookup_aset_ne _ _ h
  · rfl

theorem alookup_updateStep_self (r : Entries) (k : String) (v : PVal) :
    alookup k (updateStep r (k, v)) =
      if (alookup k r).isSome && !(k == "id") && !(k == "property_id") then some v
      else alookup k r := by
  unfold updateStep
  split
  · next hc => simp [hc, alookup_aset_self]
  · next hc => simp [eq_false_of_ne_true hc]

theorem alookup_isSome_updateStep (r : Entries) (kv : String × PVal) (f : String) :
    (alookup f (updateStep r kv)).isSome = (alookup f r).isSome := by
  rw [alookup_isSome_eq_contains, alookup_isSome_eq_contains, updateStep_map_fst]

/-- Lookup-level characterisation of the whole `setattr` loop, for an update
dict with pairwise-distinct keys: a key present in the dict is written iff
the row has that attribute and the key is neither `id` nor `property_id`;
every other key of the row is untouched. -/
theorem alookup_applyUpdates (l : Entries) (r : Entries) (f : String) (hnd : NodupKeys l) :
    alookup f (applyUpdates r l) =
      (match alookup f l with
       | some v =>
           if (alookup f r).isSome && !(f == "id") && !(f == "property_id") then some v
           else alookup f r
       | none => alookup f r) := by
  induction l generalizing r with
  | nil => rfl
  | cons kv t ih =>
      rcases kv with ⟨k, v⟩
      have hpair : k ∉ t.map Prod.fst ∧ NodupKeys t := by
        simpa [NodupKeys] using hnd
      have hstep : applyUpdates r ((k, v) :: t) = applyUpdates (updateStep r (k, v)) t := rfl
      rw [hstep, ih _ hpair.2]
      by_cases hf : f = k
      · subst hf
        rw [alookup_eq_none_of_not_mem hpair.1]
        simp [alookup_cons, alookup_updateStep_self]
      · rw [alookup_cons, if_neg hf, alookup_updateStep_ne r _ _ f hf]

-- Distinctness of the keys of the `exclude_none` dicts.

theorem optEntry_keys_sub (k : String) (o : Option PVal) :
    List.Sublist ((optEntry k o).map Prod.fst) [k] := by
  cases o <;> simp [optEntry]

/-- The keys of a table-built dict are a sublist of the table's key column. -/
theorem dictOfTable_keys_sub (t : List (String × Option PVal)) :
    List.Sublist ((dictOfTable t).map Prod.fst) (t.map Prod.fst) := by
  induction t with
  | nil => simp [dictOfTable]
  | cons kv t ih =>
      rcases kv with ⟨k, o⟩
      rw [dictOfTable_cons]
      simp only [List.map_append, List.map_cons]
      exact List.Sublist.append (optEntry_keys_sub k o) ih

theorem dictSupply_nodupKeys (m : SupplyProperty) : NodupKeys m.dictExcludeNone := by
  unfold NodupKeys SupplyProperty.dictExcludeNone
  apply List.Nodup.sublist (dictOfTable_keys_sub (supplyFieldTable m))
  simp only [supplyFieldTable, fS, fQ, fI, fB, fL, fPT, fLT, fFS, List.map_cons, List.map_nil]
  decide

theorem dictDemand_nodupKeys (m : DemandRequest) : NodupKeys m.dictExcludeNone := by
  unfold NodupKeys DemandRequest.dictExcludeNone
  apply List.Nodup.sublist (dictOfTable_keys_sub (demandFieldTable m))
  simp only [demandFieldTable, fS, fQ, fI, fB, fL, fPT, fLT, fFS, List.map_cons, List.map_nil]
  decide

-- Constructed rows.

theorem alookup_mapColumns {α : Type} (columns : List String) (g : String → α) (k : String) :
    alookup k (columns.map (fun c => (c, g c))) =
      if columns.contains k then some (g k) else none := by
  induction columns with
  | nil => rfl
  | cons c t ih =>
      by_cases h : k = c
      · subst h; simp [alookup]
      · simp [alookup, h, ih, Ne.symm h]

theorem alookup_constructRow {columns : List String} {sqlData row : Entries}
    (h : constructRow columns sqlData = some row) (k : String)
    (hk : columns.contains k = true) :
    alookup k row = some ((alookup k sqlData).getD PVal.vNone) := by
  unfold constructRow at h
  split at h
  · cases h
    rw [alookup_mapColumns, if_pos hk]
  · cases h

theorem constructRow_map_fst {columns : List String} {sqlData row : Entries}
    (h : constructRow columns sqlData = some row) :
    row.map Prod.fst = columns := by
  unfold constructRow at h
  split at h
  · cases h
    simp [Function.comp_def]
  · cases h

/-- The primary key of a row built by `add_supply` / `add_demand` is the id
written into its keyword dict. -/
theorem rowId_constructRow {columns : List String} {dict row : Entries} {i : String}
    (h : constructRow columns (aerase "property_id" (aset "id" (PVal.vStr i) dict)) = some row)
    (hk : columns.contains "id" = true) :
    rowId row = i := by
  have hlook := alookup_constructRow h "id" hk
  unfold rowId
  rw [hlook, alookup_aerase_ne _ (by decide), alookup_aset_self]
  rfl

-- Session commit in the three shapes the handlers use.

theorem commit_addOnly (rows : List Entries) (r : Entries) :
    (Sess.commit { committed := rows, pendingNew := [r] }).committed = rows ++ [r] := by
  simp [Sess.commit]

theorem commit_dirtyOnly (rows : List Entries) (r : Entries) :
    (Sess.commit { committed := rows, pendingDirty := [r] }).committed =
      rows.map (fun r2 => if rowId r == rowId r2 then r else r2) := by
  unfold Sess.commit
  simp only [List.contains_nil, Bool.not_false, List.filter_true, List.append_nil]
  congr 1
  funext r2
  cases h : (rowId r == rowId r2) <;> simp [List.find?, h]

theorem contains_singleton (i x : String) : ([i].contains x) = (x == i) := by
  cases h : x == i <;> simp [List.contains, List.elem, h]

theorem commit_delOnly (rows : List Entries) (i : String) :
    (Sess.commit { committed := rows, pendingDel := [i] }).committed =
      rows.filter (fun r => !(rowId r == i)) := by
  unfold Sess.commit
  simp only [contains_singleton, List.find?_nil, List.append_nil]
  simp

-- `findRow` facts.

theorem findRow_append (rows1 rows2 : List Entries) (i : String) :
    findRow (rows1 ++ rows2) i = Option.or (findRow rows1 i) (findRow rows2 i) := by
  simp [findRow, List.find?_append]

theorem findRow_singleton_self (r : Entries) : findRow [r] (rowId r) = some r := by
  simp [findRow, List.find?]

theorem findRow_filter_out (rows : List Entries) (i : String) :
    findRow (rows.filter (fun r => !(rowId r == i))) i = none := by
  induction rows with
  | nil => rfl
  | cons r t ih =>
      cases h : (rowId r == i)
      · rw [← ih]; simp [findRow, List.filter, List.find?, h]
      · rw [← ih]; simp [findRow, List.filter, h]

theorem findRow_map_update (rows : List Entries) (i : String) (rNew : Entries)
    (h : rowId rNew = i) :
    (findRow rows i).isSome = true →
    findRow (rows.map (fun r2 => if rowId rNew == rowId r2 then rNew else r2)) i = some rNew := by
  induction rows with
  | nil => intro hc; simp [findRow] at hc
  | cons r t ih =>
      intro hs
      by_cases hc : rowId r = i
      · have hb : (rowId rNew == rowId r) = true := by
          rw [h, hc]; exact beq_self_eq_true i
        have hb2 : (rowId rNew == i) = true := by rw [h]; exact beq_self_eq_true i
        simp [findRow, List.find?, hb, hb2]
      · have hb : (rowId rNew == rowId r) = false := by
          rw [h]; exact beq_false_of_ne (fun he => hc he.symm)
        have hb2 : (rowId r == i) = false := beq_false_of_ne hc
        have hs2 : (findRow t i).isSome = true := by
          simpa [findRow, List.find?, hb2] using hs
        simpa [findRow, List.find?, hb, hb2] using ih hs2

/-- The `setattr` loop never changes the primary key. -/
theorem rowId_applyUpdates (r l : Entries) (hnd : NodupKeys l) :
    rowId (applyUpdates r l) = rowId r := by
  unfold rowId
  rw [alookup_applyUpdates l r "id" hnd]
  cases alookup "id" l <;> simp

-- Extraction of range clauses from each kind of emitted clause group.

theorem rangeOn_optTermStr (fld k : String) (o : Option String) :
    (optTermStr k o).filter (Clause.isRangeOn fld) = [] := by
  cases o <;> simp [optTermStr, Clause.isRangeOn, List.filter]

theorem rangeOn_optTermTruthyStr (fld k : String) (o : Option String) :
    (optTermTruthyStr k o).filter (Clause.isRangeOn fld) = [] := by
  cases o with
  | none => rfl
  | some v =>
      by_cases h : v = "" <;> simp [optTermTruthyStr, h, Clause.isRangeOn, List.filter]

theorem rangeOn_termIfTruthyInt (fld k : String) (o : Option Int) :
    (termIfTruthyInt k o).filter (Clause.isRangeOn fld) = [] := by
  cases o with
  | none => rfl
  | some b =>
      by_cases h : b = 0 <;> simp [termIfTruthyInt, h, Clause.isRangeOn, List.filter]

theorem rangeOn_termIfSomeBool (fld k : String) (o : Option Bool) :
    (termIfSomeBool k o).filter (Clause.isRangeOn fld) = [] := by
  cases o <;> simp [termIfSomeBool, Clause.isRangeOn, List.filter]

theorem rangeOn_rangeIfTruthy_self (fld : String) (lo hi : Option Int) :
    (rangeIfTruthy fld lo hi).filter (Clause.isRangeOn fld) = rangeIfTruthy fld lo hi := by
  unfold rangeIfTruthy
  split <;> simp [Clause.isRangeOn, List.filter]

theorem rangeOn_rangeIfTruthy_ne (fld fld2 : String) (lo hi : Option Int)
    (h : (fld2 == fld) = false) :
    (rangeIfTruthy fld2 lo hi).filter (Clause.isRangeOn fld) = [] := by
  unfold rangeIfTruthy
  split <;> simp [Clause.isRangeOn, List.filter, h]

theorem rangeOn_supplyPriceCross_min (p : Option ℚ) :
    (supplyPriceCross p).filter (Clause.isRangeOn "price_min") =
      (match p with
       | some p2 =>
           if p2 = 0 then [] else [Clause.range "price_min" { lte := some (PVal.vNum p2) }]
       | none => []) := by
  cases p with
  | none => rfl
  | some p2 =>
      by_cases h : p2 = 0 <;> simp [supplyPriceCross, h, Clause.isRangeOn, List.filter]

theorem rangeOn_supplyPriceCross_max (p : Option ℚ) :
    (supplyPriceCross p).filter (Clause.isRangeOn "price_max") =
      (match p with
       | some p2 =>
           if p2 = 0 then [] else [Clause.range "price_max" { gte := some (PVal.vNum p2) }]
       | none => []) := by
  cases p with
  | none => rfl
  | some p2 =>
      by_cases h : p2 = 0 <;> simp [supplyPriceCross, h, Clause.isRangeOn, List.filter]

theorem rangeOn_supplyPriceCross_other (fld : String) (p : Option ℚ)
    (h1 : ("price_min" == fld) = false) (h2 : ("price_max" == fld) = false) :
    (supplyPriceCross p).filter (Clause.isRangeOn fld) = [] := by
  cases p with
  | none => rfl
  | some p2 =>
      by_cases h : p2 = 0 <;> simp [supplyPriceCross, h, Clause.isRangeOn, List.filter, h1, h2]

theorem rangeOn_supplyBhkCross_min (b : Option Int) :
    (supplyBhkCross b).filter (Clause.isRangeOn "bhk_min") =
      (match b with
       | some b2 =>
           if b2 = 0 then [] else [Clause.range "bhk_min" { lte := some (PVal.vInt b2) }]
       | none => []) := by
  cases b with
  | none => rfl
  | some b2 =>
      by_cases h : b2 = 0 <;> simp [supplyBhkCross, h, Clause.isRangeOn, List.filter]

theorem rangeOn_supplyBhkCross_max (b : Option Int) :
    (supplyBhkCross b).filter (Clause.isRangeOn "bhk_max") =
      (match b with
       | some b2 =>
           if b2 = 0 then [] else [Clause.range "bhk_max" { gte := some (PVal.vInt b2) }]
       | none => []) := by
  cases b with
  | none => rfl
  | some b2 =>
      by_cases h : b2 = 0 <;> simp [supplyBhkCross, h, Clause.isRangeOn, List.filter]

theorem rangeOn_supplyBhkCross_other (fld : String) (b : Option Int)
    (h1 : ("bhk_min" == fld) = false) (h2 : ("bhk_max" == fld) = false) :
    (supplyBhkCross b).filter (Clause.isRangeOn fld) = [] := by
  cases b with
  | none => rfl
  | some b2 =>
      by_cases h : b2 = 0 <;> simp [supplyBhkCross, h, Clause.isRangeOn, List.filter, h1, h2]

theorem rangeOn_gteCrossQ_self (fld : String) (o : Option ℚ) :
    (gteCrossQ fld o).filter (Clause.isRangeOn fld) = gteCrossQ fld o := by
  cases o with
  | none => rfl
  | some a => by_cases h : a = 0 <;> simp [gteCrossQ, h, Clause.isRangeOn, List.filter]

theorem rangeOn_gteCrossQ_ne (fld fld2 : String) (o : Option ℚ) (h : (fld2 == fld) = false) :
    (gteCrossQ fld2 o).filter (Clause.isRangeOn fld) = [] := by
  cases o with
  | none => rfl
  | some a => by_cases h2 : a = 0 <;> simp [gteCrossQ, h2, Clause.isRangeOn, List.filter, h]

theorem rangeOn_lteCrossQ_self (fld : String) (o : Option ℚ) :
    (lteCrossQ fld o).filter (Clause.isRangeOn fld) = lteCrossQ fld o := by
  cases o with
  | none => rfl
  | some c => by_cases h : c = 0 <;> simp [lteCrossQ, h, Clause.isRangeOn, List.filter]

theorem rangeOn_lteCrossQ_ne (fld fld2 : String) (o : Option ℚ) (h : (fld2 == fld) = false) :
    (lteCrossQ fld2 o).filter (Clause.isRangeOn fld) = [] := by
  cases o with
  | none => rfl
  | some c => by_cases h2 : c = 0 <;> simp [lteCrossQ, h2, Clause.isRangeOn, List.filter, h]

theorem rangeOn_gteCrossI_self (fld : String) (o : Option Int) :
    (gteCrossI fld o).filter (Clause.isRangeOn fld) = gteCrossI fld o := by
  cases o with
  | none => rfl
  | some a => by_cases h : a = 0 <;> simp [gteCrossI, h, Clause.isRangeOn, List.filter]

theorem rangeOn_gteCrossI_ne (fld fld2 : String) (o : Option Int) (h : (fld2 == fld) = false) :
    (gteCrossI fld2 o).filter (Clause.isRangeOn fld) = [] := by
  cases o with
  | none => rfl
  | some a => by_cases h2 : a = 0 <;> simp [gteCrossI, h2, Clause.isRangeOn, List.filter, h]

theorem rangeOn_lteCrossI_self (fld : String) (o : Option Int) :
    (lteCrossI fld o).filter (Clause.isRangeOn fld) = lteCrossI fld o := by
  cases o with
  | none => rfl
  | some c => by_cases h : c = 0 <;> simp [lteCrossI, h, Clause.isRangeOn, List.filter]

theorem rangeOn_lteCrossI_ne (fld fld2 : String) (o : Option Int) (h : (fld2 == fld) = false) :
    (lteCrossI fld2 o).filter (Clause.isRangeOn fld) = [] := by
  cases o with
  | none => rfl
  | some c => by_cases h2 : c = 0 <;> simp [lteCrossI, h2, Clause.isRangeOn, List.filter, h]

-- Characterisations of the handler flows.

theorem rowId_constructRow_supply {payload : SupplyPayload} {freshId : String} {row : Entries}
    (h : constructRow supplyColumns (supplySqlData payload freshId) = some row) :
    rowId row = supplyNewId payload freshId :=
  rowId_constructRow h (by decide)

theorem rowId_constructRow_demand {payload : DemandPayload} {freshId : String} {row : Entries}
    (h : constructRow demandColumns (demandSqlData payload freshId) = some row) :
    rowId row = demandNewId payload freshId :=
  rowId_constructRow h (by decide)

theorem add_supply_success {env : WriteEnv} {freshId : String} {payload : SupplyPayload}
    {rows : List Entries} {idx : Idx} {row : Entries}
    (hc : constructRow supplyColumns (supplySqlData payload freshId) = some row)
    (h1 : env.dbCommitOk = true) (h2 : env.indexOk = true) (h3 : env.searchOk = true)
    (hfr : findRow rows (rowId row) = none) :
    add_supply env freshId payload rows idx =
      (Resp.created "Supply added" (rowId row) env.searchHits,
       rows ++ [row],
       idxUpsert idx (rowId row) (prepareDoc (to_dict_supply row))) := by
  unfold add_supply
  rw [hc]
  simp [h1, h2, h3, hfr, commit_addOnly, Sess.freshFor, Sess.addRow,
    Sess.rollback, prepare_and_index_supply]

theorem add_supply_indexFail {env : WriteEnv} {freshId : String} {payload : SupplyPayload}
    {rows : List Entries} {idx : Idx} {row : Entries}
    (hc : constructRow supplyColumns (supplySqlData payload freshId) = some row)
    (h1 : env.dbCommitOk = true) (h2 : env.indexOk = false)
    (hfr : findRow rows (rowId row) = none) :
    add_supply env freshId payload rows idx = (Resp.httpError 500, rows ++ [row], idx) := by
  unfold add_supply
  rw [hc]
  simp [h1, h2, hfr, commit_addOnly, Sess.freshFor, Sess.addRow, Sess.rollback]

theorem add_supply_searchFail {env : WriteEnv} {freshId : String} {payload : SupplyPayload}
    {rows : List Entries} {idx : Idx} {row : Entries}
    (hc : constructRow supplyColumns (supplySqlData payload freshId) = some row)
    (h1 : env.dbCommitOk = true) (h2 : env.indexOk = true) (h3 : env.searchOk = false)
    (hfr : findRow rows (rowId row) = none) :
    add_supply env freshId payload rows idx =
      (Resp.httpError 500, rows ++ [row],
       idxUpsert idx (rowId row) (prepareDoc (to_dict_supply row))) := by
  unfold add_supply
  rw [hc]
  simp [h1, h2, h3, hfr, commit_addOnly, Sess.freshFor, Sess.addRow,
    Sess.rollback, prepare_and_index_supply]

theorem add_demand_success {env : WriteEnv} {freshId : String} {payload : DemandPayload}
    {rows : List Entries} {idx : Idx} {row : Entries}
    (hc : constructRow demandColumns (demandSqlData payload freshId) = some row)
    (h1 : env.dbCommitOk = true) (h2 : env.indexOk = true) (h3 : env.searchOk = true)
    (hfr : findRow rows (rowId row) = none) :
    add_demand env freshId payload rows idx =
      (Resp.created "Demand added" (rowId row) env.searchHits,
       rows ++ [row],
       idxUpsert idx (rowId row) (prepareDoc (to_dict_demand row))) := by
  unfold add_demand
  rw [hc]
  simp [h1, h2, h3, hfr, commit_addOnly, Sess.freshFor, Sess.addRow,
    Sess.rollback, prepare_and_index_demand]

theorem add_demand_indexFail {env : WriteEnv} {freshId : String} {payload : DemandPayload}
    {rows : List Entries} {idx : Idx} {row : Entries}
    (hc : constructRow demandColumns (demandSqlData payload freshId) = some row)
    (h1 : env.dbCommitOk = true) (h2 : env.indexOk = false)
    (hfr : findRow rows (rowId row) = none) :
    add_demand env freshId payload rows idx = (Resp.httpError 500, rows ++ [row], idx) := by
  unfold add_demand
  rw [hc]
  simp [h1, h2, hfr, commit_addOnly, Sess.freshFor, Sess.addRow, Sess.rollback]

theorem add_demand_searchFail {env : WriteEnv} {freshId : String} {payload : DemandPayload}
    {rows : List Entries} {idx : Idx} {row : Entries}
    (hc : constructRow demandColumns (demandSqlData payload freshId) = some row)
    (h1 : env.dbCommitOk = true) (h2 : env.indexOk = true) (h3 : env.searchOk = false)
    (hfr : findRow rows (rowId row) = none) :
    add_demand env freshId payload rows idx =
      (Resp.httpError 500, rows ++ [row],
       idxUpsert idx (rowId row) (prepareDoc (to_dict_demand row))) := by
  unfold add_demand
  rw [hc]
  simp [h1, h2, h3, hfr, commit_addOnly, Sess.freshFor, Sess.addRow,
    Sess.rollback, prepare_and_index_demand]

theorem update_supply_success {env : WriteEnv} {i : String} {payload : SupplyPayload}
    {rows : List Entries} {idx : Idx} {row : Entries}
    (hf : findRow rows i = some row)
    (h1 : env.dbCommitOk = true) (h2 : env.indexOk = true) :
    update_supply env i payload rows idx =
      (Resp.updated "Supply updated"
        (rowId (applyUpdates row (parseSupply payload).dictExcludeNone)),
       rows.map (fun r2 =>
         if rowId (applyUpdates row (parseSupply payload).dictExcludeNone) == rowId r2
         then applyUpdates row (parseSupply payload).dictExcludeNone else r2),
       idxUpsert idx (rowId (applyUpdates row (parseSupply payload).dictExcludeNone))
         (prepareDoc (to_dict_supply (applyUpdates row (parseSupply payload).dictExcludeNone)))) := by
  unfold update_supply
  rw [hf]
  simp [h1, h2, commit_dirtyOnly, Sess.freshFor, Sess.markDirty, prepare_and_index_supply]

theorem update_supply_indexFail {env : WriteEnv} {i : String} {payload : SupplyPayload}
    {rows : List Entries} {idx : Idx} {row : Entries}
    (hf : findRow rows i = some row)
    (h1 : env.dbCommitOk = true) (h2 : env.indexOk = false) :
    update_supply env i payload rows idx =
      (Resp.httpError 500,
       rows.map (fun r2 =>
         if rowId (applyUpdates row (parseSupply payload).dictExcludeNone) == rowId r2
         then applyUpdates row (parseSupply payload).dictExcludeNone else r2),
       idx) := by
  unfold update_supply
  rw [hf]
  simp [h1, h2, commit_dirtyOnly, Sess.freshFor, Sess.markDirty, Sess.rollback]

theorem update_demand_success {env : WriteEnv} {i : String} {payload : DemandPayload}
    {rows : List Entries} {idx : Idx} {row : Entries}
    (hf : findRow rows i = some row)
    (h1 : env.dbCommitOk = true) (h2 : env.indexOk = true) :
    update_demand env i payload rows idx =
      (Resp.updated "Demand updated"
        (rowId (applyUpdates row (parseDemand payload).dictExcludeNone)),
       rows.map (fun r2 =>
         if rowId (applyUpdates row (parseDemand payload).dictExcludeNone) == rowId r2
         then applyUpdates row (parseDemand payload).dictExcludeNone else r2),
       idxUpsert idx (rowId (applyUpdates row (parseDemand payload).dictExcludeNone))
         (prepareDoc (to_dict_demand (applyUpdates row (parseDemand payload).dictExcludeNone)))) := by
  unfold update_demand
  rw [hf]
  simp [h1, h2, commit_dirtyOnly, Sess.freshFor, Sess.markDirty, prepare_and_index_demand]

theorem update_demand_indexFail {env : WriteEnv} {i : String} {payload : DemandPayload}
    {rows : List Entries} {idx : Idx} {row : Entries}
    (hf : findRow rows i = some row)
    (h1 : env.dbCommitOk = true) (h2 : env.indexOk = false) :
    update_demand env i payload rows idx =
      (Resp.httpError 500,
       rows.map (fun r2 =>
         if rowId (applyUpdates row (parseDemand payload).dictExcludeNone) == rowId r2
         then applyUpdates row (parseDemand payload).dictExcludeNone else r2),
       idx) := by
  unfold update_demand
  rw [hf]
  simp [h1, h2, commit_dirtyOnly, Sess.freshFor, Sess.markDirty, Sess.rollback]

theorem delete_supply_notFound {env : WriteEnv} {i : String} {rows : List Entries} {idx : Idx}
    (h : findRow rows i = none) :
    delete_supply env i rows idx = (Resp.httpError 404, rows, idx, false) := by
  unfold delete_supply
  rw [h]

theorem delete_supply_found {env : WriteEnv} {i : String} {rows : List Entries} {idx : Idx}
    {row : Entries} (h : findRow rows i = some row)
    (h1 : env.dbCommitOk = true) (h2 : env.indexDeleteOk = true) :
    delete_supply env i rows idx =
      (Resp.deleted "Supply deleted" (idxDelete idx i).1,
       rows.filter (fun r => !(rowId r == i)), (idxDelete idx i).2, true) := by
  unfold delete_supply
  rw [h]
  simp [h1, h2, commit_delOnly, Sess.freshFor, Sess.markDel]

theorem delete_demand_notFound {env : WriteEnv} {i : String} {rows : List Entries} {idx : Idx}
    (h : findRow rows i = none) :
    delete_demand env i rows idx = (Resp.httpError 404, rows, idx, false) := by
  unfold delete_demand
  rw [h]

theorem delete_demand_found {env : WriteEnv} {i : String} {rows : List Entries} {idx : Idx}
    {row : Entries} (h : findRow rows i = some row)
    (h1 : env.dbCommitOk = true) (h2 : env.indexDeleteOk = true) :
    delete_demand env i rows idx =
      (Resp.deleted "Demand deleted" (idxDelete idx i).1,
       rows.filter (fun r => !(rowId r == i)), (idxDelete idx i).2, true) := by
  unfold delete_demand
  rw [h]
  simp [h1, h2, commit_delOnly, Sess.freshFor, Sess.markDel]

theorem idxDelete_alookup_self (idx : Idx) (i : String) (h : NodupKeys idx) :
    alookup i (idxDelete idx i).2 = none := by
  unfold idxDelete
  cases hl : alookup i idx <;> simp [hl, alookup_aerase_self i idx h]

theorem idxDelete_absent (idx : Idx) (i : String) (h : alookup i idx = none) :
    idxDelete idx i = ("not_found", idx) := by
  unfold idxDelete
  rw [h]

theorem rowId_of_findRow {rows : List Entries} {i : String} {row : Entries}
    (h : findRow rows i = some row) : rowId row = i := by
  unfold findRow at h
  have h2 := List.find?_some h
  simp only [beq_iff_eq] at h2
  exact h2

-- Claim C3.

/-- C3 (counterexample): the claim quantifies over every supply record with
price `p` and every demand record with bound `price_min = a`, but at `p = 0`
(resp. `a = 0`) Python truthiness suppresses the filters: the cross-match
query for a supply record with price 0 contains no `price_min` or
`price_max` range filter, and the one for a demand record with
`price_min = 0` contains no `price` range filter, contradicting the claim. -/
theorem claim_C3_counterexample :
    rangeFiltersOn "price_min"
        (create_cross_search_query_toDemand { price := some 0, bhk := some 2 }) = [] ∧
    rangeFiltersOn "price_max"
        (create_cross_search_query_toDemand { price := some 0, bhk := some 2 }) = [] ∧
    rangeFiltersOn "price"
        (create_cross_search_query_toSupply { price_min := some 0 }) = [] := by
  decide

/-- C3 (amended): for a supply source, the cross-match query against the
demand index contains the range filters `price_min <= p` and
`price_max >= p` exactly when the source price `p` is present and nonzero
(and likewise `bhk_min <= b`, `bhk_max >= b` for a present nonzero `b`);
for a demand source, the query against the supply index contains the
one-sided filters `price >= a` and `price <= c` exactly for present nonzero
bounds (likewise for `bhk`); both queries are size-limited to the top 10
hits. -/
theorem claim_C3_amended (s : SupplyProperty) (d : DemandRequest) :
    (create_cross_search_query_toDemand s).size = 10 ∧
    (create_cross_search_query_toSupply d).size = 10 ∧
    rangeFiltersOn "price_min" (create_cross_search_query_toDemand s) =
      (match s.price with
       | some p => if p = 0 then [] else [Clause.range "price_min" { lte := some (PVal.vNum p) }]
       | none => []) ∧
    rangeFiltersOn "price_max" (create_cross_search_query_toDemand s) =
      (match s.price with
       | some p => if p = 0 then [] else [Clause.range "price_max" { gte := some (PVal.vNum p) }]
       | none => []) ∧
    rangeFiltersOn "bhk_min" (create_cross_search_query_toDemand s) =
      (match s.bhk with
       | some b => if b = 0 then [] else [Clause.range "bhk_min" { lte := some (PVal.vInt b) }]
       | none => []) ∧
    rangeFiltersOn "bhk_max" (create_cross_search_query_toDemand s) =
      (match s.bhk with
       | some b => if b = 0 then [] else [Clause.range "bhk_max" { gte := some (PVal.vInt b) }]
       | none => []) ∧
    rangeFiltersOn "price" (create_cross_search_query_toSupply d) =
      (match d.price_min with
       | some a => if a = 0 then [] else [Clause.range "price" { gte := some (PVal.vNum a) }]
       | none => []) ++
      (match d.price_max with
       | some c => if c = 0 then [] else [Clause.range "price" { lte := some (PVal.vNum c) }]
       | none => []) ∧
    rangeFiltersOn "bhk" (create_cross_search_query_toSupply d) =
      (match d.bhk_min with
       | some a => if a = 0 then [] else [Clause.range "bhk" { gte := some (PVal.vInt a) }]
       | none => []) ++
      (match d.bhk_max with
       | some c => if c = 0 then [] else [Clause.range "bhk" { lte := some (PVal.vInt c) }]
       | none => []) := by
  refine ⟨rfl, rfl, ?_, ?_, ?_, ?_, ?_, ?_⟩
  · simp [rangeFiltersOn, create_cross_search_query_toDemand, List.filter_append,
      rangeOn_optTermStr, rangeOn_supplyPriceCross_min,
      rangeOn_supplyBhkCross_other "price_min" s.bhk (by decide) (by decide)]
  · simp [rangeFiltersOn, create_cross_search_query_toDemand, List.filter_append,
      rangeOn_optTermStr, rangeOn_supplyPriceCross_max,
      rangeOn_supplyBhkCross_other "price_max" s.bhk (by decide) (by decide)]
  · simp [rangeFiltersOn, create_cross_search_query_toDemand, List.filter_append,
      rangeOn_optTermStr, rangeOn_supplyBhkCross_min,
      rangeOn_supplyPriceCross_other "bhk_min" s.price (by decide) (by decide)]
  · simp [rangeFiltersOn, create_cross_search_query_toDemand, List.filter_append,
      rangeOn_optTermStr, rangeOn_supplyBhkCross_max,
      rangeOn_supplyPriceCross_other "bhk_max" s.price (by decide) (by decide)]
  · simp only [rangeFiltersOn, create_cross_search_query_toSupply, List.filter_append,
      rangeOn_optTermStr, rangeOn_gteCrossQ_self, rangeOn_lteCrossQ_self,
      rangeOn_gteCrossI_ne "price" "bhk" d.bhk_min (by decide),
      rangeOn_lteCrossI_ne "price" "bhk" d.bhk_max (by decide),
      List.nil_append, List.append_nil]
    rfl
  · simp only [rangeFiltersOn, create_cross_search_query_toSupply, List.filter_append,
      rangeOn_optTermStr, rangeOn_gteCrossI_self, rangeOn_lteCrossI_self,
      rangeOn_gteCrossQ_ne "bhk" "price" d.price_min (by decide),
      rangeOn_lteCrossQ_ne "bhk" "price" d.price_max (by decide),
      List.nil_append, List.append_nil]
    rfl

-- Claim C5.

/-- C5 (counterexample): the claim says that if only the minimum price
parameter is supplied the emitted price-range filter contains a `gte`
bound; but supplying `min_price = 0` (with no maximum) emits no price-range
filter at all, because Python truthiness treats 0 as absent. -/
theorem claim_C5_counterexample :
    rangeFiltersOn "price"
      (search_supply_query none none none none none none none
        none none none (some 0) none none none 10) = [] := by
  decide

/-- C5 (amended): for the `GET /search/supply` query builder, a price-range
filter is emitted iff at least one of `min_price` / `max_price` is present
and nonzero; it carries a `gte` bound iff `min_price` is present and
nonzero and an `lte` bound iff `max_price` is present and nonzero — so a
single nonzero bound yields a one-sided range and no nonzero bound yields
no filter; likewise for the `area_sqft` range. -/
theorem claim_C5_amended (locality keywords title_keywords listing_type property_type
    facing_direction furnishing_status : Option String)
    (bhk min_sqft max_sqft min_price max_price : Option Int)
    (has_lift : Option Bool) (customer_name : Option String) (size : Int) :
    rangeFiltersOn "price" (search_supply_query locality keywords title_keywords listing_type
        property_type facing_direction furnishing_status bhk min_sqft max_sqft min_price
        max_price has_lift customer_name size) =
      (if truthyI min_price || truthyI max_price then
        [Clause.range "price"
          { gte := if truthyI min_price then min_price.map PVal.vInt else none
            lte := if truthyI max_price then max_price.map PVal.vInt else none }]
       else []) ∧
    rangeFiltersOn "area_sqft" (search_supply_query locality keywords title_keywords listing_type
        property_type facing_direction furnishing_status bhk min_sqft max_sqft min_price
        max_price has_lift customer_name size) =
      (if truthyI min_sqft || truthyI max_sqft then
        [Clause.range "area_sqft"
          { gte := if truthyI min_sqft then min_sqft.map PVal.vInt else none
            lte := if truthyI max_sqft then max_sqft.map PVal.vInt else none }]
       else []) := by
  constructor
  · simp only [rangeFiltersOn, search_supply_query, List.filter_append,
      rangeOn_optTermTruthyStr, rangeOn_termIfTruthyInt, rangeOn_termIfSomeBool,
      rangeOn_rangeIfTruthy_self,
      rangeOn_rangeIfTruthy_ne "price" "area_sqft" min_sqft max_sqft (by decide),
      List.nil_append, List.append_nil]
    rfl
  · simp only [rangeFiltersOn, search_supply_query, List.filter_append,
      rangeOn_optTermTruthyStr, rangeOn_termIfTruthyInt, rangeOn_termIfSomeBool,
      rangeOn_rangeIfTruthy_self,
      rangeOn_rangeIfTruthy_ne "area_sqft" "price" min_price max_price (by decide),
      List.nil_append, List.append_nil]
    rfl

-- Claim C10.

/-- C10 (confirmed): in both the cross-match builder and the search builder,
a numeric value of zero and an empty text parameter are treated exactly
like absent ones — the built query is identical to the query built with the
parameter absent, so no clause is emitted for it. -/
theorem claim_C10_zero_and_empty_treated_as_absent :
    (∀ s : SupplyProperty,
      create_cross_search_query_toDemand { s with price := some 0 } =
        create_cross_search_query_toDemand { s with price := none } ∧
      create_cross_search_query_toDemand { s with bhk := some 0 } =
        create_cross_search_query_toDemand { s with bhk := none } ∧
      create_cross_search_query_toDemand { s with locality := some "" } =
        create_cross_search_query_toDemand { s with locality := none }) ∧
    (∀ d : DemandRequest,
      create_cross_search_query_toSupply { d with price_min := some 0 } =
        create_cross_search_query_toSupply { d with price_min := none } ∧
      create_cross_search_query_toSupply { d with price_max := some 0 } =
        create_cross_search_query_toSupply { d with price_max := none } ∧
      create_cross_search_query_toSupply { d with bhk_min := some 0 } =
        create_cross_search_query_toSupply { d with bhk_min := none } ∧
      create_cross_search_query_toSupply { d with bhk_max := some 0 } =
        create_cross_search_query_toSupply { d with bhk_max := none } ∧
      create_cross_search_query_toSupply { d with locality := some "" } =
        create_cross_search_query_toSupply { d with locality := none }) ∧
    (∀ (locality keywords title_keywords listing_type property_type
        facing_direction furnishing_status : Option String)
       (bhk min_sqft max_sqft min_price max_price : Option Int)
       (has_lift : Option Bool) (customer_name : Option String) (size : Int),
      search_supply_query locality keywords title_keywords listing_type property_type
          facing_direction furnishing_status (some 0) min_sqft max_sqft min_price
          max_price has_lift customer_name size =
        search_supply_query locality keywords title_keywords listing_type property_type
          facing_direction furnishing_status none min_sqft max_sqft min_price
          max_price has_lift customer_name size ∧
      search_supply_query locality keywords title_keywords listing_type property_type
          facing_direction furnishing_status bhk (some 0) max_sqft min_price
          max_price has_lift customer_name size =
        search_supply_query locality keywords title_keywords listing_type property_type
          facing_direction furnishing_status bhk none max_sqft min_price
          max_price has_lift customer_name size ∧
      search_supply_query locality keywords title_keywords listing_type property_type
          facing_direction furnishing_status bhk min_sqft (some 0) min_price
          max_price has_lift customer_name size =
        search_supply_query locality keywords title_keywords listing_type property_type
          facing_direction furnishing_status bhk min_sqft none min_price
          max_price has_lift customer_name size ∧
      search_supply_query locality keywords title_keywords listing_type property_type
          facing_direction furnishing_status bhk min_sqft max_sqft (some 0)
          max_price has_lift customer_name size =
        search_supply_query locality keywords title_keywords listing_type property_type
          facing_direction furnishing_status bhk min_sqft max_sqft none
          max_price has_lift customer_name size ∧
      search_supply_query locality keywords title_keywords listing_type property_type
          facing_direction furnishing_status bhk min_sqft max_sqft min_price
          (some 0) has_lift customer_name size =
        search_supply_query locality keywords title_keywords listing_type property_type
          facing_direction furnishing_status bhk min_sqft max_sqft min_price
          none has_lift customer_name size ∧
      search_supply_query (some "") keywords title_keywords listing_type property_type
          facing_direction furnishing_status bhk min_sqft max_sqft min_price
          max_price has_lift customer_name size =
        search_supply_query none keywords title_keywords listing_type property_type
          facing_direction furnishing_status bhk min_sqft max_sqft min_price
          max_price has_lift customer_name size ∧
      search_supply_query locality (some "") title_keywords listing_type property_type
          facing_direction furnishing_status bhk min_sqft max_sqft min_price
          max_price has_lift customer_name size =
        search_supply_query locality none title_keywords listing_type property_type
          facing_direction furnishing_status bhk min_sqft max_sqft min_price
          max_price has_lift customer_name size ∧
      search_supply_query locality keywords (some "") listing_type property_type
          facing_direction furnishing_status bhk min_sqft max_sqft min_price
          max_price has_lift customer_name size =
        search_supply_query locality keywords none listing_type property_type
          facing_direction furnishing_status bhk min_sqft max_sqft min_price
          max_price has_lift customer_name size ∧
      search_supply_query locality keywords title_keywords (some "") property_type
          facing_direction furnishing_status bhk min_sqft max_sqft min_price
          max_price has_lift customer_name size =
        search_supply_query locality keywords title_keywords none property_type
          facing_direction furnishing_status bhk min_sqft max_sqft min_price
          max_price has_lift customer_name size ∧
      search_supply_query locality keywords title_keywords listing_type (some "")
          facing_direction furnishing_status bhk min_sqft max_sqft min_price
          max_price has_lift customer_name size =
        search_supply_query locality keywords title_keywords listing_type none
          facing_direction furnishing_status bhk min_sqft max_sqft min_price
          max_price has_lift customer_name size ∧
      search_supply_query locality keywords title_keywords listing_type property_type
          (some "") furnishing_status bhk min_sqft max_sqft min_price
          max_price has_lift customer_name size =
        search_supply_query locality keywords title_keywords listing_type property_type
          none furnishing_status bhk min_sqft max_sqft min_price
          max_price has_lift customer_name size ∧
      search_supply_query locality keywords title_keywords listing_type property_type
          facing_direction (some "") bhk min_sqft max_sqft min_price
          max_price has_lift customer_name size =
        search_supply_query locality keywords title_keywords listing_type property_type
          facing_direction none bhk min_sqft max_sqft min_price
          max_price has_lift customer_name size ∧
      search_supply_query locality keywords title_keywords listing_type property_type
          facing_direction furnishing_status bhk min_sqft max_sqft min_price
          max_price has_lift (some "") size =
        search_supply_query locality keywords title_keywords listing_type property_type
          facing_direction furnishing_status bhk min_sqft max_sqft min_price
          max_price has_lift none size) := by
  refine ⟨fun s => ⟨rfl, rfl, rfl⟩, fun d => ⟨rfl, rfl, rfl, rfl, rfl⟩, ?_⟩
  intro locality keywords title_keywords listing_type property_type facing_direction
    furnishing_status bhk min_sqft max_sqft min_price max_price has_lift customer_name size
  exact ⟨rfl, rfl, rfl, rfl, rfl, rfl, rfl, rfl, rfl, rfl, rfl, rfl, rfl⟩

-- Claim C1.

/-- C1 (code evaluation at the failing input): for a create whose index write
fails after the relational commit, the handler reports a 500 but the
committed relational row with the allocated id persists — the
`db.rollback()` issued after `db.commit()` does not undo the committed
insert — and no index document exists.  This contradicts the claim that the
coordinator deletes the just-inserted row, so that no relational row with
the allocated id remains. -/
theorem claim_C1_committed_row_persists_after_index_failure :
    ((add_supply { indexOk := false } "sid-1" {} [] []).1 = Resp.httpError 500 ∧
     (findRow (add_supply { indexOk := false } "sid-1" {} [] []).2.1 "sid-1").isSome = true ∧
     (add_supply { indexOk := false } "sid-1" {} [] []).2.2 = []) ∧
    ((add_demand { indexOk := false } "did-1" {} [] []).1 = Resp.httpError 500 ∧
     (findRow (add_demand { indexOk := false } "did-1" {} [] []).2.1 "did-1").isSome = true ∧
     (add_demand { indexOk := false } "did-1" {} [] []).2.2 = []) := by
  decide

-- Claim C2.

/-- C2 (counterexample): when the cross-match query fails after the
relational insert and the index upsert both succeeded, the handler raises a
500 — it does not report the write as successful with an empty match list
as the claim states. -/
theorem claim_C2_counterexample :
    (add_supply { searchOk := false } "sid-2" {} [] []).1 = Resp.httpError 500 := by
  decide

/-- C2 (amended): a cross-match failure after a fully successful write makes
the request report a 500 error (not a success with an empty match list);
the committed relational row and the freshly indexed document are
nevertheless retained — the post-commit rollback removes neither. -/
theorem claim_C2_crossmatch_failure_reports_500_but_write_kept
    (env : WriteEnv) (freshId : String) (ps : SupplyPayload) (pd : DemandPayload)
    (rows rowsD : List Entries) (idx idxD : Idx) (rowS rowD : Entries)
    (h1 : env.dbCommitOk = true) (h2 : env.indexOk = true) (h3 : env.searchOk = false)
    (hcS : constructRow supplyColumns (supplySqlData ps freshId) = some rowS)
    (hfS : findRow rows (rowId rowS) = none)
    (hcD : constructRow demandColumns (demandSqlData pd freshId) = some rowD)
    (hfD : findRow rowsD (rowId rowD) = none) :
    (add_supply env freshId ps rows idx =
       (Resp.httpError 500, rows ++ [rowS],
        idxUpsert idx (rowId rowS) (prepareDoc (to_dict_supply rowS))) ∧
     findRow (rows ++ [rowS]) (rowId rowS) = some rowS ∧
     alookup (rowId rowS) (idxUpsert idx (rowId rowS) (prepareDoc (to_dict_supply rowS))) =
       some (prepareDoc (to_dict_supply rowS))) ∧
    (add_demand env freshId pd rowsD idxD =
       (Resp.httpError 500, rowsD ++ [rowD],
        idxUpsert idxD (rowId rowD) (prepareDoc (to_dict_demand rowD))) ∧
     findRow (rowsD ++ [rowD]) (rowId rowD) = some rowD ∧
     alookup (rowId rowD) (idxUpsert idxD (rowId rowD) (prepareDoc (to_dict_demand rowD))) =
       some (prepareDoc (to_dict_demand rowD))) := by
  refine ⟨⟨add_supply_searchFail hcS h1 h2 h3 hfS, ?_, alookup_aset_self _ _ _⟩,
          ⟨add_demand_searchFail hcD h1 h2 h3 hfD, ?_, alookup_aset_self _ _ _⟩⟩
  · rw [findRow_append, hfS, findRow_singleton_self]
    rfl
  · rw [findRow_append, hfD, findRow_singleton_self]
    rfl

/-- Concrete witness for the amended C2. -/
theorem claim_C2_crossmatch_failure_witness :
    constructRow supplyColumns (supplySqlData {} "w1") = some exSupplyRow ∧
    constructRow demandColumns (demandSqlData {} "w1") = some exDemandRow ∧
    add_supply { searchOk := false } "w1" {} [] [] =
      (Resp.httpError 500, [] ++ [exSupplyRow],
       idxUpsert [] (rowId exSupplyRow) (prepareDoc (to_dict_supply exSupplyRow))) ∧
    add_demand { searchOk := false } "w1" {} [] [] =
      (Resp.httpError 500, [] ++ [exDemandRow],
       idxUpsert [] (rowId exDemandRow) (prepareDoc (to_dict_demand exDemandRow))) := by
  have h := claim_C2_crossmatch_failure_reports_500_but_write_kept
    { searchOk := false } "w1" {} {} [] [] [] [] exSupplyRow exDemandRow
    rfl rfl rfl (by decide) (by decide) (by decide) (by decide)
  exact ⟨by decide, by decide, h.1.1, h.2.1⟩

-- Claim C6.

/-- C6 (confirmed): deleting a non-existent id returns 404 from the
relational check and never issues an index delete call; deleting an
existing id removes both the relational row and the index document (an
absent index document is not an error), and a repeated delete of the same
id returns 404. -/
theorem claim_C6_delete_idempotence
    (env : WriteEnv) (i : String) (rows : List Entries) (idx : Idx) (row : Entries)
    (h1 : env.dbCommitOk = true) (h2 : env.indexDeleteOk = true) :
    (findRow rows i = none →
      delete_supply env i rows idx = (Resp.httpError 404, rows, idx, false) ∧
      delete_demand env i rows idx = (Resp.httpError 404, rows, idx, false)) ∧
    (findRow rows i = some row →
      delete_supply env i rows idx =
        (Resp.deleted "Supply deleted" (idxDelete idx i).1,
         rows.filter (fun r => !(rowId r == i)), (idxDelete idx i).2, true) ∧
      delete_demand env i rows idx =
        (Resp.deleted "Demand deleted" (idxDelete idx i).1,
         rows.filter (fun r => !(rowId r == i)), (idxDelete idx i).2, true) ∧
      findRow (rows.filter (fun r => !(rowId r == i))) i = none ∧
      (NodupKeys idx → alookup i (idxDelete idx i).2 = none) ∧
      (alookup i idx = none → idxDelete idx i = ("not_found", idx)) ∧
      delete_supply env i (rows.filter (fun r => !(rowId r == i))) (idxDelete idx i).2 =
        (Resp.httpError 404, rows.filter (fun r => !(rowId r == i)), (idxDelete idx i).2, false) ∧
      delete_demand env i (rows.filter (fun r => !(rowId r == i))) (idxDelete idx i).2 =
        (Resp.httpError 404, rows.filter (fun r => !(rowId r == i)), (idxDelete idx i).2, false)) := by
  constructor
  · intro h
    exact ⟨delete_supply_notFound h, delete_demand_notFound h⟩
  · intro h
    exact ⟨delete_supply_found h h1 h2, delete_demand_found h h1 h2,
      findRow_filter_out rows i, idxDelete_alookup_self idx i, idxDelete_absent idx i,
      delete_supply_notFound (findRow_filter_out rows i),
      delete_demand_notFound (findRow_filter_out rows i)⟩

/-- Concrete witness for C6. -/
theorem claim_C6_delete_idempotence_witness :
    delete_supply {} "d1" [[("id", PVal.vStr "d1")]] [("d1", [("t", PVal.vNone)])] =
      (Resp.deleted "Supply deleted" "deleted", [], [], true) ∧
    delete_supply {} "d1" [] [] = (Resp.httpError 404, [], [], false) := by
  constructor
  · have h := (claim_C6_delete_idempotence {} "d1" [[("id", PVal.vStr "d1")]]
      [("d1", [("t", PVal.vNone)])] [("id", PVal.vStr "d1")] rfl rfl).2 (by decide)
    rw [h.1]
    decide
  · exact ((claim_C6_delete_idempotence {} "d1" [] [] [] rfl rfl).1 (by decide)).1

-- Claim C7.

/-- C7 (confirmed): for every successful create and update, the index
document written under the record's id is computed from the committed
relational row (the row stored in the relational state when the handler
returns), as the row's `to_dict` projection with the `property_id` /
`request_id` key removed and the row's primary key used as the document
key. -/
theorem claim_C7_projection_fidelity
    (env : WriteEnv) (freshId i : String) (ps : SupplyPayload) (pd : DemandPayload)
    (rows : List Entries) (idx : Idx) (row : Entries)
    (h1 : env.dbCommitOk = true) (h2 : env.indexOk = true) (h3 : env.searchOk = true) :
    (constructRow supplyColumns (supplySqlData ps freshId) = some row →
     findRow rows (rowId row) = none →
       (add_supply env freshId ps rows idx).2.1 = rows ++ [row] ∧
       findRow (rows ++ [row]) (rowId row) = some row ∧
       alookup (rowId row) (add_supply env freshId ps rows idx).2.2 =
         some (prepareDoc (to_dict_supply row))) ∧
    (constructRow demandColumns (demandSqlData pd freshId) = some row →
     findRow rows (rowId row) = none →
       (add_demand env freshId pd rows idx).2.1 = rows ++ [row] ∧
       findRow (rows ++ [row]) (rowId row) = some row ∧
       alookup (rowId row) (add_demand env freshId pd rows idx).2.2 =
         some (prepareDoc (to_dict_demand row))) ∧
    (findRow rows i = some row →
       findRow (update_supply env i ps rows idx).2.1 i =
         some (applyUpdates row (parseSupply ps).dictExcludeNone) ∧
       alookup i (update_supply env i ps rows idx).2.2 =
         some (prepareDoc (to_dict_supply (applyUpdates row (parseSupply ps).dictExcludeNone)))) ∧
    (findRow rows i = some row →
       findRow (update_demand env i pd rows idx).2.1 i =
         some (applyUpdates row (parseDemand pd).dictExcludeNone) ∧
       alookup i (update_demand env i pd rows idx).2.2 =
         some (prepareDoc (to_dict_demand (applyUpdates row (parseDemand pd).dictExcludeNone)))) := by
  refine ⟨?_, ?_, ?_, ?_⟩
  · intro hc hfr
    rw [add_supply_success hc h1 h2 h3 hfr]
    refine ⟨rfl, ?_, alookup_aset_self _ _ _⟩
    rw [findRow_append, hfr, findRow_singleton_self]
    rfl
  · intro hc hfr
    rw [add_demand_success hc h1 h2 h3 hfr]
    refine ⟨rfl, ?_, alookup_aset_self _ _ _⟩
    rw [findRow_append, hfr, findRow_singleton_self]
    rfl
  · intro hf
    have hr : rowId (applyUpdates row (parseSupply ps).dictExcludeNone) = i := by
      rw [rowId_applyUpdates _ _ (dictSupply_nodupKeys _), rowId_of_findRow hf]
    rw [update_supply_success hf h1 h2]
    constructor
    · exact findRow_map_update rows i _ hr (by rw [hf]; rfl)
    · rw [hr]
      exact alookup_aset_self _ _ _
  · intro hf
    have hr : rowId (applyUpdates row (parseDemand pd).dictExcludeNone) = i := by
      rw [rowId_applyUpdates _ _ (dictDemand_nodupKeys _), rowId_of_findRow hf]
    rw [update_demand_success hf h1 h2]
    constructor
    · exact findRow_map_update rows i _ hr (by rw [hf]; rfl)
    · rw [hr]
      exact alookup_aset_self _ _ _

/-- Concrete witness for C7. -/
theorem claim_C7_projection_fidelity_witness :
    (add_supply {} "w1" {} [] []).2.2 =
      idxUpsert [] (rowId exSupplyRow) (prepareDoc (to_dict_supply exSupplyRow)) ∧
    alookup (rowId exSupplyRow) (add_supply {} "w1" {} [] []).2.2 =
      some (prepareDoc (to_dict_supply exSupplyRow)) ∧
    findRow (update_supply {} "u1" { title := some (some "new") }
        [[("id", PVal.vStr "u1"), ("title", PVal.vStr "old")]] []).2.1 "u1" =
      some (applyUpdates [("id", PVal.vStr "u1"), ("title", PVal.vStr "old")]
        (parseSupply { title := some (some "new") }).dictExcludeNone) := by
  have h := claim_C7_projection_fidelity {} "w1" "u1" {} {} [] [] exSupplyRow
    rfl rfl rfl
  have h2 := claim_C7_projection_fidelity {} "w1" "u1"
    { title := some (some "new") } {}
    [[("id", PVal.vStr "u1"), ("title", PVal.vStr "old")]] []
    [("id", PVal.vStr "u1"), ("title", PVal.vStr "old")] rfl rfl rfl
  exact ⟨by decide, (h.1 (by decide) (by decide)).2.2,
    (h2.2.2.1 (by decide)).1⟩

-- Claim C8.

/-- C8 (confirmed): when the index upsert fails after a successful
relational commit on an update, the committed relational change is not
rolled back — the stored row keeps the updated field values while the
request reports a 500, and no index document is touched. -/
theorem claim_C8_update_index_failure_keeps_relational_change
    (env : WriteEnv) (i : String) (ps : SupplyPayload) (pd : DemandPayload)
    (rows : List Entries) (idx : Idx) (row : Entries)
    (h1 : env.dbCommitOk = true) (h2 : env.indexOk = false)
    (hf : findRow rows i = some row) :
    (update_supply env i ps rows idx).1 = Resp.httpError 500 ∧
    (update_supply env i ps rows idx).2.2 = idx ∧
    findRow (update_supply env i ps rows idx).2.1 i =
      some (applyUpdates row (parseSupply ps).dictExcludeNone) ∧
    (update_demand env i pd rows idx).1 = Resp.httpError 500 ∧
    (update_demand env i pd rows idx).2.2 = idx ∧
    findRow (update_demand env i pd rows idx).2.1 i =
      some (applyUpdates row (parseDemand pd).dictExcludeNone) := by
  have hrS : rowId (applyUpdates row (parseSupply ps).dictExcludeNone) = i := by
    rw [rowId_applyUpdates _ _ (dictSupply_nodupKeys _), rowId_of_findRow hf]
  have hrD : rowId (applyUpdates row (parseDemand pd).dictExcludeNone) = i := by
    rw [rowId_applyUpdates _ _ (dictDemand_nodupKeys _), rowId_of_findRow hf]
  rw [update_supply_indexFail hf h1 h2, update_demand_indexFail hf h1 h2]
  exact ⟨rfl, rfl, findRow_map_update rows i _ hrS (by rw [hf]; rfl),
         rfl, rfl, findRow_map_update rows i _ hrD (by rw [hf]; rfl)⟩

/-- Concrete witness for C8. -/
theorem claim_C8_update_index_failure_witness :
    (update_supply { indexOk := false } "u1" { title := some (some "new") }
        [[("id", PVal.vStr "u1"), ("title", PVal.vStr "old")]] []).1 = Resp.httpError 500 ∧
    findRow (update_supply { indexOk := false } "u1" { title := some (some "new") }
        [[("id", PVal.vStr "u1"), ("title", PVal.vStr "old")]] []).2.1 "u1" =
      some (applyUpdates [("id", PVal.vStr "u1"), ("title", PVal.vStr "old")]
        (parseSupply { title := some (some "new") }).dictExcludeNone) := by
  have h := claim_C8_update_index_failure_keeps_relational_change
    { indexOk := false } "u1" { title := some (some "new") } {}
    [[("id", PVal.vStr "u1"), ("title", PVal.vStr "old")]] []
    [("id", PVal.vStr "u1"), ("title", PVal.vStr "old")] rfl rfl (by decide)
  exact ⟨h.1, h.2.2.1⟩

-- Claim C9.

/-- C9 (confirmed): a present non-empty caller-supplied id is used unchanged
as the record identity; an absent or empty id is replaced by the freshly
generated uuid; and on a successful create the id reported in the response
is exactly the key under which both the relational row and the index
document were written. -/
theorem claim_C9_identity_allocation
    (env : WriteEnv) (freshId sid : String) (ps : SupplyPayload) (pd : DemandPayload)
    (rows rowsD : List Entries) (idx idxD : Idx) (rowS rowD : Entries)
    (h1 : env.dbCommitOk = true) (h2 : env.indexOk = true) (h3 : env.searchOk = true)
    (hcS : constructRow supplyColumns (supplySqlData ps freshId) = some rowS)
    (hfS : findRow rows (rowId rowS) = none)
    (hcD : constructRow demandColumns (demandSqlData pd freshId) = some rowD)
    (hfD : findRow rowsD (rowId rowD) = none) :
    ((parseSupply ps).property_id = some sid → sid ≠ "" → supplyNewId ps freshId = sid) ∧
    ((parseSupply ps).property_id = none → supplyNewId ps freshId = freshId) ∧
    ((parseSupply ps).property_id = some "" → supplyNewId ps freshId = freshId) ∧
    ((parseDemand pd).property_id = some sid → sid ≠ "" → demandNewId pd freshId = sid) ∧
    ((parseDemand pd).property_id = none → demandNewId pd freshId = freshId) ∧
    ((parseDemand pd).property_id = some "" → demandNewId pd freshId = freshId) ∧
    rowId rowS = supplyNewId ps freshId ∧
    add_supply env freshId ps rows idx =
      (Resp.created "Supply added" (supplyNewId ps freshId) env.searchHits,
       rows ++ [rowS],
       idxUpsert idx (supplyNewId ps freshId) (prepareDoc (to_dict_supply rowS))) ∧
    findRow (rows ++ [rowS]) (supplyNewId ps freshId) = some rowS ∧
    alookup (supplyNewId ps freshId)
        (idxUpsert idx (supplyNewId ps freshId) (prepareDoc (to_dict_supply rowS))) =
      some (prepareDoc (to_dict_supply rowS)) ∧
    rowId rowD = demandNewId pd freshId ∧
    add_demand env freshId pd rowsD idxD =
      (Resp.created "Demand added" (demandNewId pd freshId) env.searchHits,
       rowsD ++ [rowD],
       idxUpsert idxD (demandNewId pd freshId) (prepareDoc (to_dict_demand rowD))) ∧
    findRow (rowsD ++ [rowD]) (demandNewId pd freshId) = some rowD ∧
    alookup (demandNewId pd freshId)
        (idxUpsert idxD (demandNewId pd freshId) (prepareDoc (to_dict_demand rowD))) =
      some (prepareDoc (to_dict_demand rowD)) := by
  have hrS := rowId_constructRow_supply hcS
  have hrD := rowId_constructRow_demand hcD
  refine ⟨?_, ?_, ?_, ?_, ?_, ?_, hrS, ?_, ?_, ?_, hrD, ?_, ?_, ?_⟩
  · intro h hne
    unfold supplyNewId
    rw [h]
    simp [hne]
  · intro h
    unfold supplyNewId
    rw [h]
  · intro h
    unfold supplyNewId
    rw [h]
    simp
  · intro h hne
    unfold demandNewId
    rw [h]
    simp [hne]
  · intro h
    unfold demandNewId
    rw [h]
  · intro h
    unfold demandNewId
    rw [h]
    simp
  · rw [← hrS]
    exact add_supply_success hcS h1 h2 h3 hfS
  · rw [← hrS, findRow_append, hfS, findRow_singleton_self]
    rfl
  · rw [← hrS]
    exact alookup_aset_self _ _ _
  · rw [← hrD]
    exact add_demand_success hcD h1 h2 h3 hfD
  · rw [← hrD, findRow_append, hfD, findRow_singleton_self]
    rfl
  · rw [← hrD]
    exact alookup_aset_self _ _ _

/-- Concrete witness for C9. -/
theorem claim_C9_identity_allocation_witness :
    rowId exSupplyRow = supplyNewId {} "w1" ∧
    add_supply {} "w1" {} [] [] =
      (Resp.created "Supply added" (supplyNewId {} "w1") [],
       [] ++ [exSupplyRow],
       idxUpsert [] (supplyNewId {} "w1") (prepareDoc (to_dict_supply exSupplyRow))) ∧
    rowId exDemandRow = demandNewId {} "w1" ∧
    add_demand {} "w1" {} [] [] =
      (Resp.created "Demand added" (demandNewId {} "w1") [],
       [] ++ [exDemandRow],
       idxUpsert [] (demandNewId {} "w1") (prepareDoc (to_dict_demand exDemandRow))) := by
  have h := claim_C9_identity_allocation {} "w1" "custom" {} {} [] [] [] []
    exSupplyRow exDemandRow rfl rfl rfl (by decide) (by decide) (by decide) (by decide)
  obtain ⟨-, -, -, -, -, -, h7, h8, -, -, h11, h12, -, -⟩ := h
  exact ⟨h7, h8, h11, h12⟩

-- Claim C4.

theorem alookup_dictOfTable_nil (f : String) : alookup f (dictOfTable []) = none := rfl

theorem match_some_id (o : Option PVal) :
    (match o with | some v => some v | none => none) = o := by
  cases o <;> rfl

/-- C4 (counterexample): an update request whose payload does not mention
`amenities` at all still overwrites the stored amenities list with `[]`,
because the Pydantic default `[]` for the tag-list fields survives
`dict(exclude_none=True)`.  This contradicts the claim that fields absent
from the payload retain their pre-update values. -/
theorem claim_C4_counterexample :
    alookup "amenities" ((findRow (update_supply {} "u1" {}
        [[("id", PVal.vStr "u1"), ("amenities", PVal.vList ["pool"])]] []).2.1 "u1").getD []) =
      some (PVal.vList []) ∧
    alookup "amenities" [("id", PVal.vStr "u1"), ("amenities", PVal.vList ["pool"])] =
      some (PVal.vList ["pool"]) := by
  decide

/-- C4 (amended): the update loop applies exactly the entries of
`dict(exclude_none=True)` to the fetched row — an entry is written iff the
row has that column and the key is neither `id` nor `property_id`, every
other column keeps its value, and the id is never modified (the dict never
contains an `id` key).  The dict contains a field iff its parsed value is
non-null, so: a field absent from the payload is absent from the dict and
retains its pre-update value, EXCEPT the three tag-list fields
(`overlooking`, `additional_rooms`, `amenities`), whose empty-list defaults
are applied and overwrite the stored lists with `[]`; an explicitly
supplied `false`/`0`/empty-string (non-null) value is in the dict and does
overwrite; an explicitly supplied null is dropped (the contract is
exclude-none, not exclude-unset). -/
theorem claim_C4_update_partiality_amended :
    (∀ (r : Entries) (p : SupplyPayload) (f : String),
      alookup f (applyUpdates r (parseSupply p).dictExcludeNone) =
        (match alookup f ((parseSupply p).dictExcludeNone) with
         | some v =>
             if (alookup f r).isSome && !(f == "id") && !(f == "property_id") then some v
             else alookup f r
         | none => alookup f r)) ∧
    (∀ (r : Entries) (p : DemandPayload) (f : String),
      alookup f (applyUpdates r (parseDemand p).dictExcludeNone) =
        (match alookup f ((parseDemand p).dictExcludeNone) with
         | some v =>
             if (alookup f r).isSome && !(f == "id") && !(f == "property_id") then some v
             else alookup f r
         | none => alookup f r)) ∧
    (∀ (p : SupplyPayload),
      alookup "property_id" ((parseSupply p).dictExcludeNone) =
        (defNone p.property_id).map PVal.vStr ∧
      alookup "customer_id" ((parseSupply p).dictExcludeNone) =
        (defNone p.customer_id).map PVal.vStr ∧
      alookup "title" ((parseSupply p).dictExcludeNone) =
        (defNone p.title).map PVal.vStr ∧
      alookup "description" ((parseSupply p).dictExcludeNone) =
        (defNone p.description).map PVal.vStr ∧
      alookup "locality" ((parseSupply p).dictExcludeNone) =
        (defNone p.locality).map PVal.vStr ∧
      alookup "facing_direction" ((parseSupply p).dictExcludeNone) =
        (defNone p.facing_direction).map PVal.vStr ∧
      alookup "property_type" ((parseSupply p).dictExcludeNone) =
        (defNone p.property_type).map (fun e => PVal.vStr e.value) ∧
      alookup "listing_type" ((parseSupply p).dictExcludeNone) =
        (defNone p.listing_type).map (fun e => PVal.vStr e.value) ∧
      alookup "furnishing_status" ((parseSupply p).dictExcludeNone) =
        (defNone p.furnishing_status).map (fun e => PVal.vStr e.value) ∧
      alookup "overlooking" ((parseSupply p).dictExcludeNone) =
        (defEmptyList p.overlooking).map PVal.vList ∧
      alookup "additional_rooms" ((parseSupply p).dictExcludeNone) =
        (defEmptyList p.additional_rooms).map PVal.vList ∧
      alookup "amenities" ((parseSupply p).dictExcludeNone) =
        (defEmptyList p.amenities).map PVal.vList ∧
      alookup "listed_date" ((parseSupply p).dictExcludeNone) =
        (defNone p.listed_date).map PVal.vStr ∧
      alookup "lift_available" ((parseSupply p).dictExcludeNone) =
        (defNone p.lift_available).map PVal.vBool ∧
      alookup "customer_name" ((parseSupply p).dictExcludeNone) =
        (defNone p.customer_name).map PVal.vStr ∧
      alookup "customer_email" ((parseSupply p).dictExcludeNone) =
        (defNone p.customer_email).map PVal.vStr ∧
      alookup "customer_phone" ((parseSupply p).dictExcludeNone) =
        (defNone p.customer_phone).map PVal.vStr ∧
      alookup "customer_address" ((parseSupply p).dictExcludeNone) =
        (defNone p.customer_address).map PVal.vStr ∧
      alookup "customer_referred_by" ((parseSupply p).dictExcludeNone) =
        (defNone p.customer_referred_by).map PVal.vStr ∧
      alookup "customer_additional_info" ((parseSupply p).dictExcludeNone) =
        (defNone p.customer_additional_info).map PVal.vStr ∧
      alookup "price" ((parseSupply p).dictExcludeNone) =
        (defNone p.price).map PVal.vNum ∧
      alookup "deposit" ((parseSupply p).dictExcludeNone) =
        (defNone p.deposit).map PVal.vNum ∧
      alookup "bhk" ((parseSupply p).dictExcludeNone) =
        (defNone p.bhk).map PVal.vInt ∧
      alookup "area_sqft" ((parseSupply p).dictExcludeNone) =
        (defNone p.area_sqft).map PVal.vInt ∧
      alookup "bathrooms" ((parseSupply p).dictExcludeNone) =
        (defNone p.bathrooms).map PVal.vInt ∧
      alookup "age_of_building" ((parseSupply p).dictExcludeNone) =
        (defNone p.age_of_building).map PVal.vInt ∧
      alookup "floor_number" ((parseSupply p).dictExcludeNone) =
        (defNone p.floor_number).map PVal.vInt ∧
      alookup "total_floors" ((parseSupply p).dictExcludeNone) =
        (defNone p.total_floors).map PVal.vInt ∧
      alookup "id" ((parseSupply p).dictExcludeNone) = none) ∧
    (∀ (p : DemandPayload),
      alookup "property_id" ((parseDemand p).dictExcludeNone) =
        (defNone p.property_id).map PVal.vStr ∧
      alookup "customer_id" ((parseDemand p).dictExcludeNone) =
        (defNone p.customer_id).map PVal.vStr ∧
      alookup "title" ((parseDemand p).dictExcludeNone) =
        (defNone p.title).map PVal.vStr ∧
      alookup "description" ((parseDemand p).dictExcludeNone) =
        (defNone p.description).map PVal.vStr ∧
      alookup "locality" ((parseDemand p).dictExcludeNone) =
        (defNone p.locality).map PVal.vStr ∧
      alookup "facing_direction" ((parseDemand p).dictExcludeNone) =
        (defNone p.facing_direction).map PVal.vStr ∧
      alookup "property_type" ((parseDemand p).dictExcludeNone) =
        (defNone p.property_type).map (fun e => PVal.vStr e.value) ∧
      alookup "listing_type" ((parseDemand p).dictExcludeNone) =
        (defNone p.listing_type).map (fun e => PVal.vStr e.value) ∧
      alookup "furnishing_status" ((parseDemand p).dictExcludeNone) =
        (defNone p.furnishing_status).map (fun e => PVal.vStr e.value) ∧
      alookup "overlooking" ((parseDemand p).dictExcludeNone) =
        (defEmptyList p.overlooking).map PVal.vList ∧
      alookup "additional_rooms" ((parseDemand p).dictExcludeNone) =
        (defEmptyList p.additional_rooms).map PVal.vList ∧
      alookup "amenities" ((parseDemand p).dictExcludeNone) =
        (defEmptyList p.amenities).map PVal.vList ∧
      alookup "listed_date" ((parseDemand p).dictExcludeNone) =
        (defNone p.listed_date).map PVal.vStr ∧
      alookup "lift_available" ((parseDemand p).dictExcludeNone) =
        (defNone p.lift_available).map PVal.vBool ∧
      alookup "customer_name" ((parseDemand p).dictExcludeNone) =
        (defNone p.customer_name).map PVal.vStr ∧
      alookup "customer_email" ((parseDemand p).dictExcludeNone) =
        (defNone p.customer_email).map PVal.vStr ∧
      alookup "customer_phone" ((parseDemand p).dictExcludeNone) =
        (defNone p.customer_phone).map PVal.vStr ∧
      alookup "customer_address" ((parseDemand p).dictExcludeNone) =
        (defNone p.customer_address).map PVal.vStr ∧
      alookup "customer_referred_by" ((parseDemand p).dictExcludeNone) =
        (defNone p.customer_referred_by).map PVal.vStr ∧
      alookup "customer_additional_info" ((parseDemand p).dictExcludeNone) =
        (defNone p.customer_additional_info).map PVal.vStr ∧
      alookup "price_min" ((parseDemand p).dictExcludeNone) =
        (defNone p.price_min).map PVal.vNum ∧
      alookup "price_max" ((parseDemand p).dictExcludeNone) =
        (defNone p.price_max).map PVal.vNum ∧
      alookup "deposit_max" ((parseDemand p).dictExcludeNone) =
        (defNone p.deposit_max).map PVal.vNum ∧
      alookup "bhk_min" ((parseDemand p).dictExcludeNone) =
        (defNone p.bhk_min).map PVal.vInt ∧
      alookup "bhk_max" ((parseDemand p).dictExcludeNone) =
        (defNone p.bhk_max).map PVal.vInt ∧
      alookup "area_sqft_min" ((parseDemand p).dictExcludeNone) =
        (defNone p.area_sqft_min).map PVal.vInt ∧
      alookup "area_sqft_max" ((parseDemand p).dictExcludeNone) =
        (defNone p.area_sqft_max).map PVal.vInt ∧
      alookup "bathrooms" ((parseDemand p).dictExcludeNone) =
        (defNone p.bathrooms).map PVal.vInt ∧
      alookup "id" ((parseDemand p).dictExcludeNone) = none) := by
  refine ⟨fun r p f => alookup_applyUpdates _ _ _ (dictSupply_nodupKeys _),
         fun r p f => alookup_applyUpdates _ _ _ (dictDemand_nodupKeys _),
         fun p => ?_, fun p => ?_⟩
  · refine ⟨?_, ?_, ?_, ?_, ?_, ?_, ?_, ?_, ?_, ?_, ?_, ?_, ?_, ?_, ?_, ?_, ?_, ?_, ?_, ?_, ?_, ?_, ?_, ?_, ?_, ?_, ?_, ?_, ?_⟩ <;>
      simp [parseSupply, SupplyProperty.dictExcludeNone, supplyFieldTable,
        fS, fQ, fI, fB, fL, fPT, fLT, fFS, alookup_dictOfTable_cons,
        alookup_dictOfTable_nil, match_some_id]
  · refine ⟨?_, ?_, ?_, ?_, ?_, ?_, ?_, ?_, ?_, ?_, ?_, ?_, ?_, ?_, ?_, ?_, ?_, ?_, ?_, ?_, ?_, ?_, ?_, ?_, ?_, ?_, ?_, ?_, ?_⟩ <;>
      simp [parseDemand, DemandRequest.dictExcludeNone, demandFieldTable,
        fS, fQ, fI, fB, fL, fPT, fLT, fFS, alookup_dictOfTable_cons,
        alookup_dictOfTable_nil, match_some_id]

end RealEstate
